import Mathlib

/-!
Verification of the Kubernetes AI assistant backend: a shallow embedding of
the k8s tool functions (k8s_tools.py), the chat persistence layer
(database.py), the buffered and streaming chat delivery paths (main.py), and
the agent orchestration loop with its confirmation gate.  The loop and gate
are obtained in the running system from an external agent framework and the
model prompt; where a checked property concerns that loop, the loop is
modelled from the specification (such definitions say so in their doc
comments).  Tool functions are embedded as pure functions from their
arguments and the Kubernetes API's response to the pair of the textual
result and the list of API calls the function issued.
-/

/-! ## String utilities -/

/-- Does the character list `hay` start with `pat`? -/
def prefixAt (pat hay : List Char) : Bool :=
  match pat, hay with
  | [], _ => true
  | _ :: _, [] => false
  | p :: ps, h :: hs => p == h && prefixAt ps hs

/-- Does `pat` occur as a contiguous run inside `hay`? -/
def substrIn (pat hay : List Char) : Bool :=
  match hay with
  | [] => pat.isEmpty
  | _ :: hs => prefixAt pat hay || substrIn pat hs

/-- Python's `pat in hay` on strings: verbatim, case-sensitive substring test. -/
def containsSubstr (hay pat : String) : Bool := substrIn pat.toList hay.toList

/-! ## Base64 (Python `base64.b64encode` / `b64decode`) -/

/-- The 6-bit value of a base64 alphabet character, `none` outside the alphabet. -/
def b64charVal (c : Char) : Option Nat :=
  if 'A' ≤ c ∧ c ≤ 'Z' then some (c.toNat - 'A'.toNat)
  else if 'a' ≤ c ∧ c ≤ 'z' then some (c.toNat - 'a'.toNat + 26)
  else if '0' ≤ c ∧ c ≤ '9' then some (c.toNat - '0'.toNat + 52)
  else if c == '+' then some 62
  else if c == '/' then some 63
  else none

/-- The base64 alphabet character of a 6-bit value. -/
def b64charOf (n : Nat) : Char :=
  if n < 26 then Char.ofNat ('A'.toNat + n)
  else if n < 52 then Char.ofNat ('a'.toNat + n - 26)
  else if n < 62 then Char.ofNat ('0'.toNat + n - 52)
  else if n = 62 then '+'
  else '/'

/-- Decode base64 characters four at a time; `none` models `binascii.Error`
(bad padding or stray padding characters). -/
def b64quads : List Char → Option (List Nat)
  | [] => some []
  | a :: b :: c :: d :: rest => do
    let va ← b64charVal a
    let vb ← b64charVal b
    if c == '=' then
      if d == '=' && rest.isEmpty then some [va * 4 + vb / 16] else none
    else do
      let vc ← b64charVal c
      if d == '=' then
        if rest.isEmpty then some [va * 4 + vb / 16, (vb % 16) * 16 + vc / 4] else none
      else do
        let vd ← b64charVal d
        let tail ← b64quads rest
        some ([va * 4 + vb / 16, (vb % 16) * 16 + vc / 4, (vc % 4) * 64 + vd] ++ tail)
  | _ => none

/-- Python `base64.b64decode` on a str (default `validate=False`: characters
outside the alphabet and padding are discarded first). `none` models a raised
`binascii.Error`. -/
def b64decode (s : String) : Option (List Nat) :=
  b64quads (s.toList.filter (fun c => (b64charVal c).isSome || c == '='))

/-- Encode bytes three at a time into base64 characters with padding. -/
def b64encodeBytes : List Nat → String
  | [] => ""
  | [a] =>
    String.mk [b64charOf (a / 4), b64charOf ((a % 4) * 16), '=', '=']
  | [a, b] =>
    String.mk [b64charOf (a / 4), b64charOf ((a % 4) * 16 + b / 16),
               b64charOf ((b % 16) * 4), '=']
  | a :: b :: c :: rest =>
    String.mk [b64charOf (a / 4), b64charOf ((a % 4) * 16 + b / 16),
               b64charOf ((b % 16) * 4 + c / 64), b64charOf (c % 64)]
      ++ b64encodeBytes rest

/-! ## UTF-8 (Python `str.encode('utf-8')` / `bytes.decode('utf-8')`) -/

/-- UTF-8 bytes of one code point. -/
def utf8EncodeChar (c : Nat) : List Nat :=
  if c < 0x80 then [c]
  else if c < 0x800 then [0xC0 + c / 64, 0x80 + c % 64]
  else if c < 0x10000 then [0xE0 + c / 4096, 0x80 + (c / 64) % 64, 0x80 + c % 64]
  else [0xF0 + c / 262144, 0x80 + (c / 4096) % 64, 0x80 + (c / 64) % 64, 0x80 + c % 64]

/-- Python `s.encode('utf-8')` as a byte list. -/
def utf8Encode (s : String) : List Nat :=
  (s.toList.map (fun c => utf8EncodeChar c.toNat)).flatten

/-- Is `b` a UTF-8 continuation byte? -/
def utf8Cont (b : Nat) : Bool := 0x80 ≤ b && b < 0xC0

/-- Strict UTF-8 decoding to code points; `none` models a raised
`UnicodeDecodeError` (lone continuation bytes, truncated sequences,
overlong encodings, surrogates, out-of-range lead bytes).  The fuel is
structurally decreasing and is initialised to the byte count, which each
step consumes at least one of, so the fuel never runs out. -/
def utf8DecodeFuel : Nat → List Nat → Option (List Nat)
  | _, [] => some []
  | 0, _ :: _ => none
  | f + 1, b :: rest =>
    if b < 0x80 then (utf8DecodeFuel f rest).map (fun l => b :: l)
    else if b < 0xC2 then none
    else if b < 0xE0 then
      match rest with
      | c1 :: rest2 =>
        if utf8Cont c1 then
          (utf8DecodeFuel f rest2).map (fun l => ((b - 0xC0) * 64 + (c1 - 0x80)) :: l)
        else none
      | [] => none
    else if b < 0xF0 then
      match rest with
      | c1 :: c2 :: rest2 =>
        if utf8Cont c1 && utf8Cont c2
            && (b ≠ 0xE0 || 0xA0 ≤ c1) && (b ≠ 0xED || c1 < 0xA0) then
          (utf8DecodeFuel f rest2).map
            (fun l => ((b - 0xE0) * 4096 + (c1 - 0x80) * 64 + (c2 - 0x80)) :: l)
        else none
      | _ => none
    else if b < 0xF5 then
      match rest with
      | c1 :: c2 :: c3 :: rest2 =>
        if utf8Cont c1 && utf8Cont c2 && utf8Cont c3
            && (b ≠ 0xF0 || 0x90 ≤ c1) && (b ≠ 0xF4 || c1 < 0x90) then
          (utf8DecodeFuel f rest2).map
            (fun l =>
              ((b - 0xF0) * 262144 + (c1 - 0x80) * 4096 + (c2 - 0x80) * 64 + (c3 - 0x80)) :: l)
        else none
      | _ => none
    else none

/-- Python `bytes.decode('utf-8')`: `none` models a raised `UnicodeDecodeError`. -/
def utf8DecodeStr (bytes : List Nat) : Option String :=
  (utf8DecodeFuel bytes.length bytes).map (fun cps => String.mk (cps.map Char.ofNat))

/-- Python `base64.b64encode(v.encode('utf-8')).decode('utf-8')` — total for
Lean strings, as it is for Python strs. -/
def b64encodeUtf8 (s : String) : String := b64encodeBytes (utf8Encode s)

/-- The exceptions the tool code can raise besides `ApiException`. -/
inductive PyErr where
  | binasciiError (input : String)
  | unicodeDecodeError
deriving DecidableEq, Repr

deriving instance DecidableEq for Except

/-- `base64.b64decode(v).decode('utf-8')` with the exceptions surfaced. -/
def pyDecodeB64Utf8 (v : String) : Except PyErr String :=
  match b64decode v with
  | none => .error (.binasciiError v)
  | some bytes =>
    match utf8DecodeStr bytes with
    | none => .error .unicodeDecodeError
    | some s => .ok s

/-! ## The Kubernetes API surface (k8s_tools.py)

Each tool function of `k8s_tools.py` is embedded as a pure function from its
arguments and the response the Kubernetes API client would give to the pair
`(textual result, list of API calls the function issued)`.  The response is
passed in as data (the API is the external world); the call list records
whether and with what arguments the underlying client method was invoked. -/

/-- One call to the Kubernetes API client, with the arguments the tool passes. -/
inductive ApiCall where
  | createPod (name image ns : String) (port : Option Int)
  | deletePod (name ns : String)
  | createNamespaceCall (name : String)
  | deleteNamespaceCall (name : String)
  | createDeployment (name image : String) (replicas : Int) (ns : String) (port : Option Int)
  | deleteDeployment (name ns : String)
  | createService (name selectorApp : String) (port targetPort : Int) (ns svcType : String)
  | deleteService (name ns : String)
  | patchDeploymentScale (name ns : String) (replicas : Int)
  | createSecret (name ns secretType : String) (encodedData : List (String × String))
  | deleteSecret (name ns : String)
  | createIngress (name ns host serviceName : String) (servicePort : Int) (path : String)
  | deleteIngress (name ns : String)
  | createPvc (name ns storageClass size : String) (accessModes : List String)
  | deletePvc (name ns : String)
  | createHpa (name ns kind targetName : String) (minR maxR cpu : Int)
  | deleteHpa (name ns : String)
  | readPod (name ns : String)
  | listPodsNs (ns : String)
  | listPodsAll
  | listNamespacesCall
  | listServicesNs (ns : String)
  | listServicesAll
  | listDeploymentsNs (ns : String)
  | listDeploymentsAll
  | readDeploymentStatus (name ns : String)
  | readConfigMap (name ns : String)
  | readSecret (name ns : String)
  | readIngress (name ns : String)
  | readNodeStatus (name : String)
  | listNodes
  | readHpaStatus (name ns : String)
  | listHpasNs (ns : String)
  | listHpasAll
  | listPvcsNs (ns : String)
  | listPvcsAll
  | readPvc (name ns : String)
  | listNetworkPolicies (ns : String)
  | listEventsNs (ns : String) (fieldSelector : Option String) (limit : Int)
  | listEventsAll (fieldSelector : Option String) (limit : Int)
  | readPodLog (name ns : String) (tailLines : Int)
  | readResource (resourceType name : String) (ns : Option String)
deriving DecidableEq, Repr

/-- Does the call create, delete or patch cluster state (as opposed to a
read or list)? -/
def ApiCall.isMutating : ApiCall → Bool
  | createPod .. | deletePod .. | createNamespaceCall .. | deleteNamespaceCall ..
  | createDeployment .. | deleteDeployment .. | createService .. | deleteService ..
  | patchDeploymentScale .. | createSecret .. | deleteSecret .. | createIngress ..
  | deleteIngress .. | createPvc .. | deletePvc .. | createHpa .. | deleteHpa .. => true
  | _ => false

/-- The outcome of one API call: the payload on success, or an
`ApiException` carrying `e.status` and the text `str(e)` renders. -/
inductive ApiResp (α : Type) where
  | ok (payload : α)
  | exn (status : Option Int) (msg : String)
deriving DecidableEq, Repr

/-! ### Mutating tools -/

/-- k8s_tools.create_kubernetes_pod. -/
def create_kubernetes_pod (name image ns : String) (port : Option Int)
    (resp : ApiResp Unit) : String × List ApiCall :=
  (match resp with
   | .ok _ => s!"Pod {name} created successfully in namespace {ns}."
   | .exn _ msg => s!"Error creating pod {name}: {msg}",
   [ApiCall.createPod name image ns port])

/-- k8s_tools.delete_kubernetes_pod: refuses without `confirm` and only then
prompts for the exact phrase. -/
def delete_kubernetes_pod (name ns : String) (confirm : Bool)
    (resp : ApiResp Unit) : String × List ApiCall :=
  if !confirm then
    (s!"Confirmation required to delete pod '{name}' in namespace '{ns}'. " ++
     s!"Please confirm by saying 'yes, delete pod {name}'.", [])
  else
    (match resp with
     | .ok _ => s!"Pod {name} deleted successfully from namespace {ns}."
     | .exn status msg =>
       if status = some 404 then s!"Pod {name} not found in namespace {ns}."
       else s!"Error deleting pod {name}: {msg}",
     [ApiCall.deletePod name ns])

/-- k8s_tools.create_kubernetes_namespace. -/
def create_kubernetes_namespace (name : String) (resp : ApiResp Unit) :
    String × List ApiCall :=
  (match resp with
   | .ok _ => s!"Namespace {name} created successfully."
   | .exn _ msg => s!"Error creating namespace {name}: {msg}",
   [ApiCall.createNamespaceCall name])

/-- k8s_tools.delete_kubernetes_namespace. -/
def delete_kubernetes_namespace (name : String) (confirm : Bool)
    (resp : ApiResp Unit) : String × List ApiCall :=
  if !confirm then
    (s!"Confirmation required to delete namespace '{name}'. " ++
     s!"Please confirm by saying 'yes, delete namespace {name}'.", [])
  else
    (match resp with
     | .ok _ => s!"Namespace {name} deleted successfully."
     | .exn status msg =>
       if status = some 404 then s!"Namespace {name} not found."
       else s!"Error deleting namespace {name}: {msg}",
     [ApiCall.deleteNamespaceCall name])

/-- k8s_tools.create_kubernetes_deployment. -/
def create_kubernetes_deployment (name image : String) (replicas : Int) (ns : String)
    (port : Option Int) (resp : ApiResp Unit) : String × List ApiCall :=
  (match resp with
   | .ok _ => s!"Deployment {name} created successfully in namespace {ns}."
   | .exn _ msg => s!"Error creating deployment {name}: {msg}",
   [ApiCall.createDeployment name image replicas ns port])

/-- k8s_tools.delete_kubernetes_deployment. -/
def delete_kubernetes_deployment (name ns : String) (confirm : Bool)
    (resp : ApiResp Unit) : String × List ApiCall :=
  if !confirm then
    (s!"Confirmation required to delete deployment '{name}' in namespace '{ns}'. " ++
     s!"Please confirm by saying 'yes, delete deployment {name}'.", [])
  else
    (match resp with
     | .ok _ => s!"Deployment {name} deleted successfully from namespace {ns}."
     | .exn status msg =>
       if status = some 404 then s!"Deployment {name} not found in namespace {ns}."
       else s!"Error deleting deployment {name}: {msg}",
     [ApiCall.deleteDeployment name ns])

/-- k8s_tools.create_kubernetes_service. -/
def create_kubernetes_service (name selectorApp : String) (port targetPort : Int)
    (ns svcType : String) (resp : ApiResp Unit) : String × List ApiCall :=
  (match resp with
   | .ok _ => s!"Service {name} created successfully in namespace {ns}."
   | .exn _ msg => s!"Error creating service {name}: {msg}",
   [ApiCall.createService name selectorApp port targetPort ns svcType])

/-- k8s_tools.delete_kubernetes_service. -/
def delete_kubernetes_service (name ns : String) (confirm : Bool)
    (resp : ApiResp Unit) : String × List ApiCall :=
  if !confirm then
    (s!"Confirmation required to delete service '{name}' in namespace '{ns}'. " ++
     s!"Please confirm by saying 'yes, delete service {name}'.", [])
  else
    (match resp with
     | .ok _ => s!"Service {name} deleted successfully from namespace {ns}."
     | .exn status msg =>
       if status = some 404 then s!"Service {name} not found in namespace {ns}."
       else s!"Error deleting service {name}: {msg}",
     [ApiCall.deleteService name ns])

/-- The replicas argument as the dynamically typed value Python receives:
an int, or a value of any other type (its repr kept for reference). -/
inductive PyReplicas where
  | int (i : Int)
  | other (repr : String)
deriving DecidableEq, Repr

/-- `isinstance(replicas, int) and replicas >= 0`. -/
def isNonNegReplicas : PyReplicas → Bool
  | .int i => decide (0 ≤ i)
  | .other _ => false

/-- k8s_tools.scale_kubernetes_deployment: validates the replica count before
patching the deployment scale. -/
def scale_kubernetes_deployment (name : String) (replicas : PyReplicas) (ns : String)
    (resp : ApiResp Unit) : String × List ApiCall :=
  match replicas with
  | .other _ => ("Error: Replicas must be a non-negative integer.", [])
  | .int i =>
    if i < 0 then ("Error: Replicas must be a non-negative integer.", [])
    else
      (match resp with
       | .ok _ => s!"Deployment {name} in namespace {ns} scaled to {i} replicas successfully."
       | .exn status msg =>
         if status = some 404 then s!"Deployment {name} not found in namespace {ns}."
         else s!"Error scaling deployment {name}: {msg}",
       [ApiCall.patchDeploymentScale name ns i])

/-- k8s_tools.create_kubernetes_secret: base64-encodes every data value
before building the manifest. -/
def create_kubernetes_secret (name ns : String) (data : List (String × String))
    (secretType : String) (resp : ApiResp Unit) : String × List ApiCall :=
  (match resp with
   | .ok _ => s!"Secret '{name}' created successfully in namespace '{ns}'."
   | .exn _ msg => s!"Error creating Secret '{name}': {msg}",
   [ApiCall.createSecret name ns secretType
     (data.map (fun kv => (kv.1, b64encodeUtf8 kv.2)))])

/-- k8s_tools.delete_kubernetes_secret. -/
def delete_kubernetes_secret (name ns : String) (confirm : Bool)
    (resp : ApiResp Unit) : String × List ApiCall :=
  if !confirm then
    (s!"Confirmation required to delete Secret '{name}' in namespace '{ns}'. " ++
     s!"Please confirm by saying 'yes, delete secret {name}'.", [])
  else
    (match resp with
     | .ok _ => s!"Secret '{name}' deleted successfully from namespace '{ns}'."
     | .exn status msg =>
       if status = some 404 then s!"Secret '{name}' not found in namespace '{ns}'."
       else s!"Error deleting Secret '{name}': {msg}",
     [ApiCall.deleteSecret name ns])

/-- k8s_tools.create_kubernetes_ingress. -/
def create_kubernetes_ingress (name ns host serviceName : String) (servicePort : Int)
    (path : String) (resp : ApiResp Unit) : String × List ApiCall :=
  (match resp with
   | .ok _ => s!"Ingress '{name}' created successfully in namespace '{ns}' for host '{host}'."
   | .exn _ msg => s!"Error creating Ingress '{name}': {msg}",
   [ApiCall.createIngress name ns host serviceName servicePort path])

/-- k8s_tools.delete_kubernetes_ingress. -/
def delete_kubernetes_ingress (name ns : String) (confirm : Bool)
    (resp : ApiResp Unit) : String × List ApiCall :=
  if !confirm then
    (s!"Confirmation required to delete Ingress '{name}' in namespace '{ns}'. " ++
     s!"Please confirm by saying 'yes, delete ingress {name}'.", [])
  else
    (match resp with
     | .ok _ => s!"Ingress '{name}' deleted successfully from namespace '{ns}'."
     | .exn status msg =>
       if status = some 404 then s!"Ingress '{name}' not found in namespace '{ns}'."
       else s!"Error deleting Ingress '{name}': {msg}",
     [ApiCall.deleteIngress name ns])

/-- k8s_tools.create_kubernetes_pvc. -/
def create_kubernetes_pvc (name ns storageClass size : String)
    (accessModes : List String) (resp : ApiResp Unit) : String × List ApiCall :=
  (match resp with
   | .ok _ => s!"PVC '{name}' created successfully in namespace '{ns}' with size {size}."
   | .exn _ msg => s!"Error creating PVC '{name}': {msg}",
   [ApiCall.createPvc name ns storageClass size accessModes])

/-- k8s_tools.delete_kubernetes_pvc. -/
def delete_kubernetes_pvc (name ns : String) (confirm : Bool)
    (resp : ApiResp Unit) : String × List ApiCall :=
  if !confirm then
    (s!"Confirmation required to delete PVC '{name}' in namespace '{ns}'. " ++
     s!"Please confirm by saying 'yes, delete pvc {name}'.", [])
  else
    (match resp with
     | .ok _ => s!"PVC '{name}' deleted successfully from namespace '{ns}'."
     | .exn status msg =>
       if status = some 404 then s!"PVC '{name}' not found in namespace '{ns}'."
       else s!"Error deleting PVC '{name}': {msg}",
     [ApiCall.deletePvc name ns])

/-- k8s_tools.create_kubernetes_hpa. -/
def create_kubernetes_hpa (name ns scaleTargetKind scaleTargetName : String)
    (minReplicas maxReplicas cpuUtilization : Int) (resp : ApiResp Unit) :
    String × List ApiCall :=
  (match resp with
   | .ok _ => s!"HPA '{name}' created successfully in namespace '{ns}'."
   | .exn _ msg => s!"Error creating HPA '{name}': {msg}",
   [ApiCall.createHpa name ns scaleTargetKind scaleTargetName
     minReplicas maxReplicas cpuUtilization])

/-- k8s_tools.delete_kubernetes_hpa. -/
def delete_kubernetes_hpa (name ns : String) (confirm : Bool)
    (resp : ApiResp Unit) : String × List ApiCall :=
  if !confirm then
    (s!"Confirmation required to delete HPA '{name}' in namespace '{ns}'. " ++
     s!"Please confirm by saying 'yes, delete hpa {name}'.", [])
  else
    (match resp with
     | .ok _ => s!"HPA '{name}' deleted successfully from namespace '{ns}'."
     | .exn status msg =>
       if status = some 404 then s!"HPA '{name}' not found in namespace '{ns}'."
       else s!"Error deleting HPA '{name}': {msg}",
     [ApiCall.deleteHpa name ns])

/-! ### Read and list tools -/

/-- k8s_tools.list_kubernetes_namespaces. -/
def list_kubernetes_namespaces (resp : ApiResp (List String)) : String × List ApiCall :=
  (match resp with
   | .ok names => "Available namespaces: " ++ String.intercalate ", " names
   | .exn _ msg => s!"Error listing namespaces: {msg}",
   [ApiCall.listNamespacesCall])

/-- The fields of a pod object the tool renders (`pod.status.phase`,
`pod.status.pod_ip`), carried as Python renders them (`None` included). -/
structure PodInfo where
  phase : String
  podIp : String
deriving DecidableEq, Repr

/-- k8s_tools.get_kubernetes_pod. -/
def get_kubernetes_pod (name ns : String) (resp : ApiResp PodInfo) :
    String × List ApiCall :=
  (match resp with
   | .ok pod => s!"Pod {name} in namespace {ns}: Status={pod.phase}, IP={pod.podIp}"
   | .exn status msg =>
     if status = some 404 then s!"Pod {name} not found in namespace {ns}."
     else s!"Error getting pod {name}: {msg}",
   [ApiCall.readPod name ns])

/-- k8s_tools.list_kubernetes_pods. -/
def list_kubernetes_pods (ns : Option String) (resp : ApiResp (List String)) :
    String × List ApiCall :=
  match ns with
  | some n =>
    (match resp with
     | .ok pods => s!"Pods in namespace {n}: " ++ String.intercalate ", " pods
     | .exn _ msg => s!"Error listing pods: {msg}",
     [ApiCall.listPodsNs n])
  | none =>
    (match resp with
     | .ok pods => "All pods: " ++ String.intercalate ", " pods
     | .exn _ msg => s!"Error listing pods: {msg}",
     [ApiCall.listPodsAll])

/-- k8s_tools.get_kubernetes_pod_logs. -/
def get_kubernetes_pod_logs (name ns : String) (tailLines : Int)
    (resp : ApiResp String) : String × List ApiCall :=
  (match resp with
   | .ok logs =>
     if logs.trim = "" then s!"No logs found for pod '{name}' in namespace '{ns}'."
     else s!"Last {tailLines} lines of logs for pod '{name}' in namespace '{ns}':\n{logs}"
   | .exn status msg =>
     if status = some 404 then s!"Pod '{name}' not found in namespace '{ns}'."
     else s!"Error getting logs for pod '{name}': {msg}",
   [ApiCall.readPodLog name ns tailLines])

/-- The fields of an event object the tool renders. -/
structure EventInfo where
  lastTimestamp : Option String
  eventTime : String
  etype : String
  reason : String
  objKind : String
  objName : String
  message : String
deriving DecidableEq, Repr

/-- The line get_kubernetes_events renders for one event. -/
def eventLine (ev : EventInfo) : String :=
  s!"[{ev.lastTimestamp.getD ev.eventTime}] {ev.etype} {ev.reason} " ++
  s!"({ev.objKind}/{ev.objName}): {ev.message}"

/-- k8s_tools.get_kubernetes_events. -/
def get_kubernetes_events (ns : Option String) (fieldSelector : Option String)
    (limit : Int) (resp : ApiResp (List EventInfo)) : String × List ApiCall :=
  (match resp with
   | .ok events =>
     if events.isEmpty then
       "No events found in " ++
       (match ns with | some n => "namespace " ++ n | none => "all namespaces") ++
       (match fieldSelector with | some f => " with selector " ++ f | none => "") ++ "."
     else
       "Kubernetes Events:\n" ++ String.intercalate "\n" (events.map eventLine)
   | .exn _ msg => s!"Error getting Kubernetes events: {msg}",
   match ns with
   | some n => [ApiCall.listEventsNs n fieldSelector limit]
   | none => [ApiCall.listEventsAll fieldSelector limit])

/-- A status condition as the tools render it (type, status, reason, message
carried as Python renders them). -/
structure CondInfo where
  ctype : String
  cstatus : String
  creason : String
  cmessage : String
deriving DecidableEq, Repr

/-- The fields of a deployment status object the tool renders. -/
structure DeploymentStatusInfo where
  availableReplicas : Option Int
  readyReplicas : Option Int
  replicas : Option Int
  updatedReplicas : Option Int
  conditions : List CondInfo
deriving DecidableEq, Repr

/-- k8s_tools.get_kubernetes_deployment_status. -/
def get_kubernetes_deployment_status (name ns : String)
    (resp : ApiResp DeploymentStatusInfo) : String × List ApiCall :=
  (match resp with
   | .ok st =>
     let conditionsStr :=
       if st.conditions.isEmpty then "No conditions reported."
       else String.intercalate "\n" (st.conditions.map (fun c =>
         s!"- {c.ctype}: {c.cstatus} (Reason: {c.creason}, Message: {c.cmessage})"))
     s!"Deployment '{name}' in namespace '{ns}' Status:\n" ++
     s!"  Replicas: {st.readyReplicas.getD 0} ready / {st.availableReplicas.getD 0} available " ++
     s!"/ {st.updatedReplicas.getD 0} updated / {st.replicas.getD 0} total\n" ++
     s!"Conditions:\n{conditionsStr}"
   | .exn status msg =>
     if status = some 404 then s!"Deployment {name} not found in namespace {ns}."
     else s!"Error getting deployment status for {name}: {msg}",
   [ApiCall.readDeploymentStatus name ns])

/-- k8s_tools.get_kubernetes_config_map (the data dict as a key/value list;
a missing or empty dict are both falsy). -/
def get_kubernetes_config_map (name ns : String)
    (resp : ApiResp (List (String × String))) : String × List ApiCall :=
  (match resp with
   | .ok data =>
     let dataStr :=
       if data.isEmpty then "No data."
       else String.intercalate "\n" (data.map (fun kv => s!"  {kv.1}: {kv.2}"))
     s!"ConfigMap '{name}' in namespace '{ns}':\nData:\n{dataStr}"
   | .exn status msg =>
     if status = some 404 then s!"ConfigMap '{name}' not found in namespace '{ns}'."
     else s!"Error getting ConfigMap '{name}': {msg}",
   [ApiCall.readConfigMap name ns])

/-- The fields of a secret object the tool reads: `secret.type` (as rendered)
and the base64-valued data dict as a key/value list. -/
structure SecretObj where
  secretType : String
  secretData : List (String × String)
deriving DecidableEq, Repr

/-- One iteration of get_kubernetes_secret's data loop: the decode runs
before the mask branch, so its exception escapes even when masking. -/
def secretDataItem (mask : Bool) (kv : String × String) : Except PyErr String :=
  match pyDecodeB64Utf8 kv.2 with
  | .error e => .error e
  | .ok decoded =>
    if mask then .ok s!"  {kv.1}: ********"
    else .ok s!"  {kv.1}: {decoded}"

/-- k8s_tools.get_kubernetes_secret.  Only `ApiException` is caught, so a
data value that is not valid base64-encoded UTF-8 raises (`Except.error`)
out of the function; the read call is issued first in every case. -/
def get_kubernetes_secret (name ns : String) (mask_data : Bool)
    (resp : ApiResp SecretObj) : Except PyErr String × List ApiCall :=
  (match resp with
   | .ok secret =>
     match
       (if secret.secretData.isEmpty then .ok "No data."
        else (secret.secretData.mapM (secretDataItem mask_data)).map
          (String.intercalate "\n") : Except PyErr String) with
     | .error e => .error e
     | .ok dataStr =>
       .ok (s!"Secret '{name}' in namespace '{ns}':\n" ++
            s!"Type: {secret.secretType}\nData:\n{dataStr}")
   | .exn status msg =>
     if status = some 404 then .ok s!"Secret '{name}' not found in namespace '{ns}'."
     else .ok s!"Error getting Secret '{name}': {msg}",
   [ApiCall.readSecret name ns])

/-- One path entry of an ingress rule, with the `or`/`if`-defaulted fields
carried as options. -/
structure IngressPathInfo where
  pathStr : Option String
  pathType : Option String
  backendSvc : Option String
  backendPort : Option String
deriving DecidableEq, Repr

/-- One rule of an ingress spec. -/
structure IngressRuleInfo where
  host : Option String
  paths : List IngressPathInfo
deriving DecidableEq, Repr

/-- The line get_kubernetes_ingress renders for one path. -/
def ingressPathLine (p : IngressPathInfo) : String :=
  let path := p.pathStr.getD "/"
  let ptype := p.pathType.getD "Prefix"
  let svc := p.backendSvc.getD "N/A"
  let port := p.backendPort.getD "N/A"
  s!"  - Path: {path}, Type: {ptype}, Backend: {svc}:{port}"

/-- k8s_tools.get_kubernetes_ingress. -/
def get_kubernetes_ingress (name ns : String)
    (resp : ApiResp (List IngressRuleInfo)) : String × List ApiCall :=
  (match resp with
   | .ok rules =>
     let rulesStr :=
       if rules.isEmpty then "No rules defined."
       else String.intercalate "\n" (rules.map (fun rule =>
         let host := rule.host.getD "N/A"
         s!"  Host: {host}\n" ++
         String.intercalate "\n" (rule.paths.map ingressPathLine)))
     s!"Ingress '{name}' in namespace '{ns}':\nRules:\n{rulesStr}"
   | .exn status msg =>
     if status = some 404 then s!"Ingress '{name}' not found in namespace '{ns}'."
     else s!"Error getting Ingress '{name}': {msg}",
   [ApiCall.readIngress name ns])

/-- The fields of a node status object get_kubernetes_node_status renders
(capacity/allocatable as their rendered dicts; absent or empty are falsy). -/
structure NodeStatusInfo where
  conditions : List CondInfo
  addresses : List (String × String)
  capacity : Option String
  allocatable : Option String
deriving DecidableEq, Repr

/-- k8s_tools.get_kubernetes_node_status. -/
def get_kubernetes_node_status (name : String) (resp : ApiResp NodeStatusInfo) :
    String × List ApiCall :=
  (match resp with
   | .ok node =>
     let conditionsStr :=
       if node.conditions.isEmpty then "No conditions reported."
       else String.intercalate "\n" (node.conditions.map (fun c =>
         s!"- {c.ctype}: {c.cstatus} (Reason: {c.creason}, Message: {c.cmessage})"))
     let addressesStr :=
       if node.addresses.isEmpty then "No addresses reported."
       else String.intercalate "\n" (node.addresses.map (fun a =>
         s!"- {a.1}: {a.2}"))
     s!"Node '{name}' Status:\n" ++
     s!"  Conditions:\n{conditionsStr}\n" ++
     s!"  Addresses:\n{addressesStr}\n" ++
     (match node.capacity with
      | some cap => s!"  Capacity: {cap}\n"
      | none => "") ++
     (match node.allocatable with
      | some alloc => s!"  Allocatable: {alloc}\n"
      | none => "")
   | .exn status msg =>
     if status = some 404 then s!"Node '{name}' not found."
     else s!"Error getting node status for '{name}': {msg}",
   [ApiCall.readNodeStatus name])

/-- One node as get_kubernetes_cluster_status reads it: its name and its
`Ready` condition when one is present. -/
structure ClusterNodeInfo where
  nodeName : String
  readyCondition : Option CondInfo
deriving DecidableEq, Repr

/-- The summary line get_kubernetes_cluster_status renders for one node. -/
def clusterNodeLine (node : ClusterNodeInfo) : String :=
  match node.readyCondition with
  | some c =>
    if c.cstatus = "True" then s!"- Node '{node.nodeName}': Ready"
    else s!"- Node '{node.nodeName}': Not Ready (Status: {c.cstatus}, Reason: {c.creason})"
  | none => s!"- Node '{node.nodeName}': Not Ready (Status: Unknown, Reason: N/A)"

/-- Is the node counted as ready? -/
def clusterNodeReady (node : ClusterNodeInfo) : Bool :=
  match node.readyCondition with
  | some c => c.cstatus = "True"
  | none => false

/-- k8s_tools.get_kubernetes_cluster_status. -/
def get_kubernetes_cluster_status (resp : ApiResp (List ClusterNodeInfo)) :
    String × List ApiCall :=
  (match resp with
   | .ok nodes =>
     let total := nodes.length
     let ready := (nodes.filter clusterNodeReady).length
     s!"Kubernetes Cluster Status:\n" ++
     s!"  Total Nodes: {total}\n" ++
     s!"  Ready Nodes: {ready}\n" ++
     "Node Details:\n" ++ String.intercalate "\n" (nodes.map clusterNodeLine)
   | .exn _ msg => s!"Error getting cluster status: {msg}",
   [ApiCall.listNodes])

/-- One current-metric entry as get_kubernetes_hpa_status renders it, the
current and target values carried as the code renders them from the metric
and from `hpa.spec.metrics[0]`. -/
inductive HpaMetricInfo where
  | resource (resName current target : String)
  | external (metricName current target : String)
  | pods (metricName current target : String)
deriving DecidableEq, Repr

/-- The line get_kubernetes_hpa_status appends for one metric. -/
def hpaMetricLine (m : HpaMetricInfo) : String :=
  match m with
  | .resource resName current target =>
    s!"    - Resource: {resName}, Current: {current} (Target: {target})\n"
  | .external metricName current target =>
    s!"    - External: {metricName}, Current: {current} (Target: {target})\n"
  | .pods metricName current target =>
    s!"    - Pods: {metricName}, Current: {current} (Target: {target})\n"

/-- The status part of an HPA object, when present (truthy). -/
structure HpaStatusInfo where
  currentReplicas : String
  desiredReplicas : String
  currentMetrics : List HpaMetricInfo
  conditions : List CondInfo
deriving DecidableEq, Repr

/-- The fields of an HPA object get_kubernetes_hpa_status renders (min and
max replicas as rendered). -/
structure HpaInfo where
  refKind : String
  refName : String
  minReplicas : String
  maxReplicas : String
  status : Option HpaStatusInfo
deriving DecidableEq, Repr

/-- k8s_tools.get_kubernetes_hpa_status. -/
def get_kubernetes_hpa_status (name ns : String) (resp : ApiResp HpaInfo) :
    String × List ApiCall :=
  (match resp with
   | .ok hpa =>
     s!"HPA '{name}' in namespace '{ns}':\n" ++
     s!"  Reference: {hpa.refKind}/{hpa.refName}\n" ++
     s!"  Min Replicas: {hpa.minReplicas}\n" ++
     s!"  Max Replicas: {hpa.maxReplicas}\n" ++
     (match hpa.status with
      | some st =>
        s!"  Current Replicas: {st.currentReplicas}\n" ++
        s!"  Desired Replicas: {st.desiredReplicas}\n" ++
        (if st.currentMetrics.isEmpty then ""
         else "  Current Metrics:\n" ++ String.join (st.currentMetrics.map hpaMetricLine)) ++
        (if st.conditions.isEmpty then ""
         else "  Conditions:\n" ++ String.join (st.conditions.map (fun c =>
           s!"    - {c.ctype}: {c.cstatus} (Reason: {c.creason}, Message: {c.cmessage})\n")))
      | none => "")
   | .exn status msg =>
     if status = some 404 then s!"HPA '{name}' not found in namespace '{ns}'."
     else s!"Error getting HPA status for '{name}': {msg}",
   [ApiCall.readHpaStatus name ns])

/-- k8s_tools.list_kubernetes_hpas. -/
def list_kubernetes_hpas (ns : Option String) (resp : ApiResp (List String)) :
    String × List ApiCall :=
  match ns with
  | some n =>
    (match resp with
     | .ok hpas =>
       s!"HPAs in namespace {n}: " ++
       (if hpas.isEmpty then "None" else String.intercalate ", " hpas)
     | .exn _ msg => s!"Error listing HPAs: {msg}",
     [ApiCall.listHpasNs n])
  | none =>
    (match resp with
     | .ok hpas =>
       "All HPAs: " ++ (if hpas.isEmpty then "None" else String.intercalate ", " hpas)
     | .exn _ msg => s!"Error listing HPAs: {msg}",
     [ApiCall.listHpasAll])

/-- k8s_tools.list_kubernetes_services. -/
def list_kubernetes_services (ns : Option String) (resp : ApiResp (List String)) :
    String × List ApiCall :=
  match ns with
  | some n =>
    (match resp with
     | .ok services => s!"Services in namespace {n}: " ++ String.intercalate ", " services
     | .exn _ msg => s!"Error listing services: {msg}",
     [ApiCall.listServicesNs n])
  | none =>
    (match resp with
     | .ok services => "All services: " ++ String.intercalate ", " services
     | .exn _ msg => s!"Error listing services: {msg}",
     [ApiCall.listServicesAll])

/-- k8s_tools.list_kubernetes_deployments. -/
def list_kubernetes_deployments (ns : Option String) (resp : ApiResp (List String)) :
    String × List ApiCall :=
  match ns with
  | some n =>
    (match resp with
     | .ok deployments =>
       s!"Deployments in namespace {n}: " ++ String.intercalate ", " deployments
     | .exn _ msg => s!"Error listing deployments: {msg}",
     [ApiCall.listDeploymentsNs n])
  | none =>
    (match resp with
     | .ok deployments => "All deployments: " ++ String.intercalate ", " deployments
     | .exn _ msg => s!"Error listing deployments: {msg}",
     [ApiCall.listDeploymentsAll])

/-- The fields of a PVC object get_kubernetes_pvc renders. -/
structure PvcInfo where
  phase : String
  capacityStorage : Option String
  volumeName : Option String
  storageClass : String
  accessModes : List String
deriving DecidableEq, Repr

/-- k8s_tools.get_kubernetes_pvc. -/
def get_kubernetes_pvc (name ns : String) (resp : ApiResp PvcInfo) :
    String × List ApiCall :=
  (match resp with
   | .ok pvc =>
     let volume := pvc.volumeName.getD "Unbound"
     let capacity := pvc.capacityStorage.getD "N/A"
     let modes := String.intercalate ", " pvc.accessModes
     s!"PVC '{name}' in namespace '{ns}':\n" ++
     s!"  Status: {pvc.phase}\n" ++
     s!"  Volume: {volume}\n" ++
     s!"  Capacity: {capacity}\n" ++
     s!"  StorageClass: {pvc.storageClass}\n" ++
     s!"  Access Modes: {modes}"
   | .exn status msg =>
     if status = some 404 then s!"PVC '{name}' not found in namespace '{ns}'."
     else s!"Error getting PVC '{name}': {msg}",
   [ApiCall.readPvc name ns])

/-- k8s_tools.list_kubernetes_pvcs. -/
def list_kubernetes_pvcs (ns : Option String) (resp : ApiResp (List String)) :
    String × List ApiCall :=
  match ns with
  | some n =>
    (match resp with
     | .ok pvcs =>
       s!"PVCs in namespace {n}: " ++
       (if pvcs.isEmpty then "None" else String.intercalate ", " pvcs)
     | .exn _ msg => s!"Error listing PVCs: {msg}",
     [ApiCall.listPvcsNs n])
  | none =>
    (match resp with
     | .ok pvcs =>
       "All PVCs: " ++ (if pvcs.isEmpty then "None" else String.intercalate ", " pvcs)
     | .exn _ msg => s!"Error listing PVCs: {msg}",
     [ApiCall.listPvcsAll])

/-- k8s_tools.list_kubernetes_network_policies. -/
def list_kubernetes_network_policies (ns : String) (resp : ApiResp (List String)) :
    String × List ApiCall :=
  (match resp with
   | .ok policies =>
     s!"NetworkPolicies in namespace {ns}: " ++
     (if policies.isEmpty then "None" else String.intercalate ", " policies)
   | .exn _ msg => s!"Error listing NetworkPolicies: {msg}",
   [ApiCall.listNetworkPolicies ns])

/-- k8s_tools.resource_api_map: resource type to the client read method. -/
def resource_api_map : List (String × String) :=
  [("pod", "read_namespaced_pod"),
   ("deployment", "read_namespaced_deployment"),
   ("service", "read_namespaced_service"),
   ("namespace", "read_namespace"),
   ("node", "read_node"),
   ("configmap", "read_namespaced_config_map"),
   ("secret", "read_namespaced_secret"),
   ("ingress", "read_namespaced_ingress"),
   ("pvc", "read_namespaced_persistent_volume_claim"),
   ("hpa", "read_namespaced_horizontal_pod_autoscaler"),
   ("networkpolicy", "read_namespaced_network_policy")]

/-- k8s_tools.describe_kubernetes_resource; the payload is the YAML text
`yaml.dump(resource_obj.to_dict(), default_flow_style=False)` renders for
the fetched object. -/
def describe_kubernetes_resource (resourceType name : String) (ns : Option String)
    (resp : ApiResp String) : String × List ApiCall :=
  let rt := resourceType.toLower
  match resource_api_map.lookup rt with
  | none =>
    (s!"Unsupported resource type for description: {rt}. Supported types: " ++
     String.intercalate ", " (resource_api_map.map (fun kv => kv.1)), [])
  | some readMethodName =>
    if containsSubstr readMethodName "namespaced" && ns.isNone then
      (s!"Namespace is required for resource type '{rt}'.", [])
    else
      let nsR := ns.getD "N/A"
      (match resp with
       | .ok yamlText =>
         s!"Description of {rt} '{name}' in namespace '{nsR}':\n{yamlText}"
       | .exn status msg =>
         if status = some 404 then s!"{rt} '{name}' not found in namespace '{nsR}'."
         else s!"Error describing {rt} '{name}': {msg}",
       [ApiCall.readResource rt name ns])

/-- The names in the `k8s_tools` registry list, in source order. -/
def k8s_tools : List String :=
  ["list_kubernetes_namespaces", "get_kubernetes_pod", "list_kubernetes_pods",
   "get_kubernetes_pod_logs", "get_kubernetes_events",
   "get_kubernetes_deployment_status", "get_kubernetes_config_map",
   "get_kubernetes_secret", "create_kubernetes_secret", "delete_kubernetes_secret",
   "get_kubernetes_ingress", "create_kubernetes_ingress", "delete_kubernetes_ingress",
   "get_kubernetes_node_status", "get_kubernetes_cluster_status",
   "get_kubernetes_hpa_status", "list_kubernetes_hpas", "create_kubernetes_hpa",
   "delete_kubernetes_hpa", "describe_kubernetes_resource",
   "create_kubernetes_pod", "delete_kubernetes_pod",
   "create_kubernetes_namespace", "delete_kubernetes_namespace",
   "create_kubernetes_deployment", "delete_kubernetes_deployment",
   "scale_kubernetes_deployment", "create_kubernetes_service",
   "delete_kubernetes_service", "list_kubernetes_services",
   "list_kubernetes_deployments", "create_kubernetes_pvc", "delete_kubernetes_pvc",
   "get_kubernetes_pvc", "list_kubernetes_pvcs", "list_kubernetes_network_policies"]

/-! ## The session store (database.py)

Messages within a session are kept in insertion order (the storage order);
`get_session_history` sorts them by creation time with Python's stable
`sorted`, embedded as a stable insertion sort, and projects role/content. -/

/-- One chat_messages row as the history functions use it. -/
structure DBMessage where
  role : String
  content : String
  createdAt : Nat
deriving DecidableEq, Repr

/-- One chat_sessions row with its messages in insertion order. -/
structure DBSession where
  sid : String
  createdAt : Nat
  messages : List DBMessage
deriving DecidableEq, Repr

/-- The database as the list of session rows. -/
abbrev ChatDB := List DBSession

/-- Stable insertion of a message into a list sorted by creation time: the
inserted message goes after every earlier element with `createdAt ≤` its own,
as Python's stable `sorted` leaves equal keys in encounter order. -/
def insertByTime (m : DBMessage) : List DBMessage → List DBMessage
  | [] => [m]
  | x :: xs => if x.createdAt < m.createdAt then x :: insertByTime m xs else m :: x :: xs

/-- Python `sorted(messages, key=lambda m: m.created_at)` (a stable sort). -/
def sortByCreatedAt : List DBMessage → List DBMessage
  | [] => []
  | x :: xs => insertByTime x (sortByCreatedAt xs)

/-- database.get_session_history: all messages of the session ordered by
creation time, as (role, content) pairs; `[]` for an unknown session. -/
def get_session_history (db : ChatDB) (sessionId : String) :
    List (String × String) :=
  match (db : List DBSession).find? (fun s => s.sid == sessionId) with
  | none => []
  | some s => (sortByCreatedAt s.messages).map (fun m => (m.role, m.content))

/-- database.add_message_to_session: creates the session row on first use of
the id, then appends the message row; `now` is the clock value the
`func.now()` column default stores. -/
def add_message_to_session (db : ChatDB) (sessionId role content : String)
    (now : Nat) : ChatDB :=
  if ((db : List DBSession).find? (fun s => s.sid == sessionId)).isSome then
    (db : List DBSession).map (fun s =>
      if s.sid == sessionId then
        { s with messages := s.messages ++ [⟨role, content, now⟩] }
      else s)
  else
    (db : List DBSession) ++ [⟨sessionId, now, [⟨role, content, now⟩]⟩]

/-! ## The agent loop and confirmation gate

Modelled from the spec: the reasoning/acting cycle of §4.1 and the
confirmation gate of §4.2.  In the running system this loop lives in the
external agent framework (`create_react_agent` in main.py) and the gate in
the model prompt together with the delete tools' `confirm` parameters; the
repository's own files contain only its declaration, so the bounded ReAct
cycle is modelled from the specification's words. -/

/-- One message of the working history: the Oracle's output (`ai`, with the
invocations it proposes as tool calls), an Invocation Result observation
(`tool`), or a user-authored Turn (`human`). -/
inductive AgentMsg where
  | ai (content : String) (toolCalls : List (String × String))
  | tool (content : String)
  | human (content : String)
deriving DecidableEq, Repr

/-- A proposed Invocation: operation name and the target-name argument. -/
structure Invocation where
  opName : String
  targetName : String
deriving DecidableEq, Repr

/-- Modelled from the spec: one Agent Step, the tagged union
`FinalAnswer(text) | ProposedInvocations(...)`; a proposal carries the text
the Oracle emitted alongside it. -/
inductive AgentStep where
  | finalAnswer (text : String)
  | propose (content : String) (invs : List Invocation)
deriving DecidableEq, Repr

/-- Is the step a `FinalAnswer`? -/
def AgentStep.isFinal : AgentStep → Bool
  | .finalAnswer _ => true
  | .propose _ _ => false

/-- Split a character list at underscores. -/
def splitUnderscore : List Char → List (List Char)
  | [] => [[]]
  | c :: cs =>
    let rest := splitUnderscore cs
    if c == '_' then [] :: rest
    else
      match rest with
      | r :: rs => (c :: r) :: rs
      | [] => [[c]]

/-- Modelled from the spec: the operation-name's verb (`delete` from
`delete_kubernetes_pod`). -/
def opVerb (opName : String) : String :=
  String.mk ((splitUnderscore opName.toList).headD [])

/-- Modelled from the spec: the operation-name's resource type (`pod` from
`delete_kubernetes_pod`). -/
def opResource (opName : String) : String :=
  String.mk (((splitUnderscore opName.toList).drop 2).headD [])

/-- Modelled from the spec: is the operation mutating (a create, delete or
scale operation)? -/
def isMutatingOp (opName : String) : Bool :=
  prefixAt "create_".toList opName.toList || prefixAt "delete_".toList opName.toList ||
  prefixAt "scale_".toList opName.toList

/-- Modelled from the spec: the exact confirmation phrase, derived
deterministically from the operation name and its target-name argument
(`yes, delete pod nginx-1`). -/
def confirmPhrase (inv : Invocation) : String :=
  "yes, " ++ opVerb inv.opName ++ " " ++ opResource inv.opName ++ " " ++ inv.targetName

/-- Modelled from the spec: the Denied prompt instructing the user on the
exact phrase required, deterministic from operation name and target. -/
def deniedPrompt (inv : Invocation) : String :=
  "Confirmation required. Please confirm by saying '" ++ confirmPhrase inv ++ "'."

/-- The result of the Confirmation Gate's check. -/
inductive GateResult where
  | allowed
  | denied (prompt : String)
deriving DecidableEq, Repr

/-- The contents of all user-authored Turns of the history. -/
def humanContents (hist : List AgentMsg) : List String :=
  hist.filterMap (fun m => match m with | .human c => some c | _ => none)

/-- The content of the most recent user-authored Turn of the history. -/
def lastUser (hist : List AgentMsg) : Option String := (humanContents hist).getLast?

/-- Modelled from the spec: the Confirmation Gate's `check`.  A gated
operation is Allowed only if the immediately preceding user-authored Turn
contains, verbatim, the exact confirmation phrase; anything else denies. -/
def gateCheck (inv : Invocation) (hist : List AgentMsg) : GateResult :=
  match lastUser hist with
  | some u => if containsSubstr u (confirmPhrase inv) then .allowed else .denied (deniedPrompt inv)
  | none => .denied (deniedPrompt inv)

/-- What one batch of proposed invocations produced: the observation
messages appended to the working history, the (Invocation, Result) trace,
and the invocations actually passed to the Registry's invoke. -/
structure StepOut where
  msgs : List AgentMsg
  trace : List (Invocation × String)
  executed : List Invocation
deriving Repr

/-- Modelled from the spec, step 4a/4b for one Invocation: the gate decision
for a mutating operation, the Registry call otherwise — the pair of the
Invocation Result text and whether the Operation was invoked. -/
def invokeGated (invoke : Invocation → String) (inv : Invocation)
    (hist : List AgentMsg) : String × Bool :=
  if isMutatingOp inv.opName then
    match gateCheck inv hist with
    | .denied p => (p, false)
    | .allowed => (invoke inv, true)
  else (invoke inv, true)

/-- Modelled from the spec: step 4 of the cycle.  Each proposed Invocation,
in the order proposed: a mutating one goes through the Confirmation Gate —
on Denied a result asking for the exact phrase is synthesized and the
Operation is *not* called; otherwise the Operation is invoked through the
Registry and its textual result recorded.  Each result is appended to the
working history before the next proposal is processed. -/
def processInvs (invoke : Invocation → String) :
    List Invocation → List AgentMsg → StepOut
  | [], _ => ⟨[], [], []⟩
  | inv :: rest, hist =>
    let gated := invokeGated invoke inv hist
    let tail := processInvs invoke rest (hist ++ [AgentMsg.tool gated.1])
    ⟨AgentMsg.tool gated.1 :: tail.msgs,
     (inv, gated.1) :: tail.trace,
     (if gated.2 then [inv] else []) ++ tail.executed⟩

/-- The degraded final answer the iteration cap forces. -/
def iterationLimitText : String :=
  "Iteration limit reached: the agent could not produce a final answer."

/-- What one turn of the loop produced. -/
structure RunOut where
  finalText : String
  newMsgs : List AgentMsg
  trace : List (Invocation × String)
  executed : List Invocation
  consults : Nat
deriving Repr

/-- Modelled from the spec: the bounded ReAct cycle of §4.1.  Consult the
Oracle; a `FinalAnswer` terminates the loop, a proposal batch is processed
through the gate and Registry with its results fed back into the working
history; the fuel is the hard iteration cap, and exhausting it forces the
degraded `FinalAnswer`. -/
def runLoop (oracle : List AgentMsg → AgentStep) (invoke : Invocation → String) :
    Nat → List AgentMsg → RunOut
  | 0, _ => ⟨iterationLimitText, [AgentMsg.ai iterationLimitText []], [], [], 0⟩
  | n + 1, hist =>
    match oracle hist with
    | .finalAnswer t => ⟨t, [AgentMsg.ai t []], [], [], 1⟩
    | .propose c invs =>
      let proposalMsg := AgentMsg.ai c (invs.map (fun i => (i.opName, i.targetName)))
      let step := processInvs invoke invs (hist ++ [proposalMsg])
      let rest := runLoop oracle invoke n (hist ++ proposalMsg :: step.msgs)
      ⟨rest.finalText, proposalMsg :: step.msgs ++ rest.newMsgs,
       step.trace ++ rest.trace, step.executed ++ rest.executed, rest.consults + 1⟩

/-- Modelled from the spec: `run_turn` — append the user message to a
working copy of the history and run the bounded cycle. -/
def runTurn (oracle : List AgentMsg → AgentStep) (invoke : Invocation → String)
    (cap : Nat) (hist : List AgentMsg) (userMsg : String) : RunOut :=
  runLoop oracle invoke cap (hist ++ [AgentMsg.human userMsg])

/-! ## The delivery adapter (main.py)

The buffered `/chat` handler walks the returned message list keeping the
last non-empty AI content; the streaming `/chat/stream` generator emits a
session-id event, then one SSE frame per streamed fragment, and persists the
accumulated response only after the stream is exhausted. -/

/-- main.chat_invoke / chat_stream: the history rows read from the store,
converted to messages as the framework converts role/content dicts. -/
def toAgentMsgs (history : List (String × String)) : List AgentMsg :=
  history.map (fun rc =>
    if rc.1 == "assistant" then AgentMsg.ai rc.2 [] else AgentMsg.human rc.2)

/-- main.chat_invoke's extraction loop: over the result's messages, every
AI message with truthy (non-empty) content overwrites `final_response`. -/
def extractFinalResponse (acc : String) (msgs : List AgentMsg) : String :=
  msgs.foldl (fun a m =>
    match m with
    | .ai c _ => if c == "" then a else c
    | _ => a) acc

/-- The contents of the Oracle's (LLM's) messages among `msgs`, in order:
what `stream_mode="messages"` surfaces token-wise, here at message
granularity (concatenation is granularity-invariant). -/
def aiContents (msgs : List AgentMsg) : List String :=
  msgs.filterMap (fun m => match m with | .ai c _ => some c | _ => none)

/-- The buffered path's `response_text`: run the turn, then extract the last
non-empty AI content from the full result message list (the converted
history followed by the run's new messages). -/
def chatInvokeResponse (oracle : List AgentMsg → AgentStep)
    (invoke : Invocation → String) (cap : Nat)
    (hist : List (String × String)) (userMsg : String) : String :=
  let msgs := toAgentMsgs hist ++ [AgentMsg.human userMsg]
  extractFinalResponse "" (msgs ++ (runLoop oracle invoke cap msgs).newMsgs)

/-- The streaming path's fragments for the same turn: every Oracle-produced
content, in order, across all cycles of the run. -/
def streamFragments (oracle : List AgentMsg → AgentStep)
    (invoke : Invocation → String) (cap : Nat)
    (hist : List (String × String)) (userMsg : String) : List String :=
  aiContents (runLoop oracle invoke cap (toAgentMsgs hist ++ [AgentMsg.human userMsg])).newMsgs

/-- main.stream_tokens's `full_response` accumulation (`full_response += content`). -/
def concatFragments (tokens : List String) : String := tokens.foldl (· ++ ·) ""

/-- The claim that streaming and buffered delivery agree: the concatenation
of all streamed text fragments of a turn equals the `response_text` the
buffered path returns for the same Oracle, Registry, history and message. -/
def streamingBufferedEquivalence : Prop :=
  ∀ (oracle : List AgentMsg → AgentStep) (invoke : Invocation → String)
    (cap : Nat) (hist : List (String × String)) (userMsg : String),
    concatFragments (streamFragments oracle invoke cap hist userMsg) =
      chatInvokeResponse oracle invoke cap hist userMsg

/-- One step of the `stream_tokens` generator's execution: an SSE chunk
yielded to the client, or the session-store write of the assistant Turn. -/
inductive GenStep where
  | yieldEvent (chunk : String)
  | persistAssistant (sessionId content : String)
deriving DecidableEq, Repr

/-- Is the step the session-store write? -/
def GenStep.isPersist : GenStep → Bool
  | .persistAssistant _ _ => true
  | _ => false

/-- The chunk of a yield step. -/
def GenStep.yieldChunk : GenStep → Option String
  | .yieldEvent c => some c
  | _ => none

/-- One server-sent-event frame: `f"data: {content}\n\n"`. -/
def sseFrame (s : String) : String := "data: " ++ s ++ "\n\n"

/-- The first frame: `f"data: {json.dumps({'session_id': session_id})}\n\n"`. -/
def sessionIdFrame (sessionId : String) : String :=
  sseFrame ("\x7b\"session_id\": \"" ++ sessionId ++ "\"\x7d")

/-- main.stream_tokens, run to completion: yield the session-id event, then
one frame per fragment while accumulating `full_response`, and after the
stream is exhausted persist the assistant Turn when the accumulation is
non-empty.  The persist step is the last step and follows every yield. -/
def streamTokensTrace (sessionId : String) (tokens : List String) : List GenStep :=
  GenStep.yieldEvent (sessionIdFrame sessionId) ::
  tokens.map (fun c => GenStep.yieldEvent (sseFrame c)) ++
  (if concatFragments tokens == "" then []
   else [GenStep.persistAssistant sessionId (concatFragments tokens)])

/-- main.stream_tokens when the token source raises mid-stream after
delivering `delivered`: the loop aborts, the code after it never runs, so
the executed steps are the yields alone and nothing is persisted. -/
def streamTokensTraceFailed (sessionId : String) (delivered : List String) :
    List GenStep :=
  GenStep.yieldEvent (sessionIdFrame sessionId) ::
  delivered.map (fun c => GenStep.yieldEvent (sseFrame c))

/-- The chunks the generator actually sends, in order. -/
def yieldedChunks (trace : List GenStep) : List String :=
  trace.filterMap GenStep.yieldChunk

/-! ## The confirmation-gate registry claim (C2)

`gateIffMutatingClaim` states the claim "an operation is gated iff it is
mutating" over the registry: (a) every mutating operation — every create,
delete and scale tool — requires confirmation before its Kubernetes API
call executes, so an invocation that carries no confirmation (for the
delete tools, `confirm = false`; the create and scale tools accept no
confirmation at all) must issue no mutating API call; and (b) no
non-mutating tool withholds its read call pending confirmation. -/
def gateIffMutatingClaim : Prop :=
  -- (a) creates and scale, which accept no confirmation:
  ((∀ n i ns p r, ((create_kubernetes_pod n i ns p r).2.filter ApiCall.isMutating) = []) ∧
   (∀ n r, ((create_kubernetes_namespace n r).2.filter ApiCall.isMutating) = []) ∧
   (∀ n i rep ns p r,
     ((create_kubernetes_deployment n i rep ns p r).2.filter ApiCall.isMutating) = []) ∧
   (∀ n sel p tp ns ty r,
     ((create_kubernetes_service n sel p tp ns ty r).2.filter ApiCall.isMutating) = []) ∧
   (∀ n ns d ty r, ((create_kubernetes_secret n ns d ty r).2.filter ApiCall.isMutating) = []) ∧
   (∀ n ns h sn sp pa r,
     ((create_kubernetes_ingress n ns h sn sp pa r).2.filter ApiCall.isMutating) = []) ∧
   (∀ n ns sc sz am r,
     ((create_kubernetes_pvc n ns sc sz am r).2.filter ApiCall.isMutating) = []) ∧
   (∀ n ns k tn mi ma cu r,
     ((create_kubernetes_hpa n ns k tn mi ma cu r).2.filter ApiCall.isMutating) = []) ∧
   (∀ n rep ns r,
     ((scale_kubernetes_deployment n rep ns r).2.filter ApiCall.isMutating) = [])) ∧
  -- (a) deletes, invoked without confirmation:
  ((∀ n ns r, ((delete_kubernetes_pod n ns false r).2.filter ApiCall.isMutating) = []) ∧
   (∀ n r, ((delete_kubernetes_namespace n false r).2.filter ApiCall.isMutating) = []) ∧
   (∀ n ns r, ((delete_kubernetes_deployment n ns false r).2.filter ApiCall.isMutating) = []) ∧
   (∀ n ns r, ((delete_kubernetes_service n ns false r).2.filter ApiCall.isMutating) = []) ∧
   (∀ n ns r, ((delete_kubernetes_secret n ns false r).2.filter ApiCall.isMutating) = []) ∧
   (∀ n ns r, ((delete_kubernetes_ingress n ns false r).2.filter ApiCall.isMutating) = []) ∧
   (∀ n ns r, ((delete_kubernetes_pvc n ns false r).2.filter ApiCall.isMutating) = []) ∧
   (∀ n ns r, ((delete_kubernetes_hpa n ns false r).2.filter ApiCall.isMutating) = [])) ∧
  -- (b) reads and lists never withhold their call:
  ((∀ r, (list_kubernetes_namespaces r).2 ≠ []) ∧
   (∀ n ns r, (get_kubernetes_pod n ns r).2 ≠ []) ∧
   (∀ ns r, (list_kubernetes_pods ns r).2 ≠ []) ∧
   (∀ n ns t r, (get_kubernetes_pod_logs n ns t r).2 ≠ []) ∧
   (∀ ns f l r, (get_kubernetes_events ns f l r).2 ≠ []) ∧
   (∀ n ns r, (get_kubernetes_deployment_status n ns r).2 ≠ []) ∧
   (∀ n ns r, (get_kubernetes_config_map n ns r).2 ≠ []) ∧
   (∀ n ns m r, (get_kubernetes_secret n ns m r).2 ≠ []) ∧
   (∀ n ns r, (get_kubernetes_ingress n ns r).2 ≠ []) ∧
   (∀ n r, (get_kubernetes_node_status n r).2 ≠ []) ∧
   (∀ r, (get_kubernetes_cluster_status r).2 ≠ []) ∧
   (∀ n ns r, (get_kubernetes_hpa_status n ns r).2 ≠ []) ∧
   (∀ ns r, (list_kubernetes_hpas ns r).2 ≠ []) ∧
   (∀ ns r, (list_kubernetes_services ns r).2 ≠ []) ∧
   (∀ ns r, (list_kubernetes_deployments ns r).2 ≠ []) ∧
   (∀ n ns r, (get_kubernetes_pvc n ns r).2 ≠ []) ∧
   (∀ ns r, (list_kubernetes_pvcs ns r).2 ≠ []) ∧
   (∀ ns r, (list_kubernetes_network_policies ns r).2 ≠ []) ∧
   (∀ (rt n : String) (ns : Option String) (r : ApiResp String) (mth : String),
     resource_api_map.lookup rt.toLower = some mth →
     (containsSubstr mth "namespaced" = false ∨ ns.isNone = false) →
     (describe_kubernetes_resource rt n ns r).2 ≠ []))

/-! ## Witness fixtures -/

def c1Oracle : List AgentMsg → AgentStep := fun h =>
  if h.length ≤ 1 then AgentStep.propose "" [⟨"delete_kubernetes_pod", "nginx-1"⟩]
  else AgentStep.finalAnswer "Please confirm the deletion."

def c1Invoke : Invocation → String := fun _ => "Pod nginx-1 deleted successfully."

def c5AgreeOracle : List AgentMsg → AgentStep := fun h =>
  if h.length ≤ 1 then AgentStep.propose "" [⟨"list_kubernetes_pods", ""⟩]
  else AgentStep.finalAnswer "One pod is running."

def c5AgreeInvoke : Invocation → String := fun _ => "All pods: nginx-1"

def c5DisagreeOracle : List AgentMsg → AgentStep := fun h =>
  if h.length ≤ 1 then AgentStep.propose "Checking the pods. " [⟨"list_kubernetes_pods", ""⟩]
  else AgentStep.finalAnswer "One pod is running."

/-- The text get_kubernetes_secret renders for a masked secret: it depends
only on the name, namespace, type and data keys. -/
def maskedSecretText (name ns secretType : String) (keys : List String) : String :=
  let dataStr :=
    if keys.isEmpty then "No data."
    else String.intercalate "\n" (keys.map (fun k => s!"  {k}: ********"))
  s!"Secret '{name}' in namespace '{ns}':\n" ++ s!"Type: {secretType}\nData:\n{dataStr}"

/-! ## Theorems -/

theorem humanContents_append (a b : List AgentMsg) :
    humanContents (a ++ b) = humanContents a ++ humanContents b :=
  List.filterMap_append a b _

theorem lastUser_mem (h : List AgentMsg) (u : String) (hu : lastUser h = some u) :
    u ∈ humanContents h :=
  List.mem_of_mem_getLast? hu

theorem gateCheck_denied (inv : Invocation) (hist : List AgentMsg)
    (hno : ∀ u ∈ humanContents hist, containsSubstr u (confirmPhrase inv) = false) :
    gateCheck inv hist = GateResult.denied (deniedPrompt inv) := by
  unfold gateCheck
  match hl : lastUser hist with
  | none => rfl
  | some u =>
    have := hno u (lastUser_mem hist u hl)
    simp [this]

theorem invokeGated_denied (invoke : Invocation → String) (inv : Invocation)
    (hist : List AgentMsg) (hmut : isMutatingOp inv.opName = true)
    (hno : ∀ u ∈ humanContents hist, containsSubstr u (confirmPhrase inv) = false) :
    invokeGated invoke inv hist = (deniedPrompt inv, false) := by
  unfold invokeGated
  rw [hmut, if_pos rfl, gateCheck_denied inv hist hno]

/-- Appending non-user messages does not change the user-authored turns. -/
theorem humanContents_append_tool (hist : List AgentMsg) (c : String) :
    humanContents (hist ++ [AgentMsg.tool c]) = humanContents hist := by
  rw [humanContents_append]; simp [humanContents]

theorem processInvs_invariant (invoke : Invocation → String) (inv : Invocation)
    (hmut : isMutatingOp inv.opName = true) :
    ∀ (invs : List Invocation) (hist : List AgentMsg),
      (∀ u ∈ humanContents hist, containsSubstr u (confirmPhrase inv) = false) →
      inv ∉ (processInvs invoke invs hist).executed ∧
      (∀ p ∈ (processInvs invoke invs hist).trace, p.1 = inv → p.2 = deniedPrompt inv) ∧
      humanContents (processInvs invoke invs hist).msgs = [] := by
  intro invs
  induction invs with
  | nil => intro hist hno; exact ⟨by simp [processInvs], by simp [processInvs], rfl⟩
  | cons i rest ih =>
    intro hist hno
    have hno' : ∀ u ∈ humanContents (hist ++ [AgentMsg.tool (invokeGated invoke i hist).1]),
        containsSubstr u (confirmPhrase inv) = false := by
      rw [humanContents_append_tool]; exact hno
    have htail := ih _ hno'
    refine ⟨?_, ?_, ?_⟩
    · show inv ∉ _
      simp only [processInvs]
      intro hmem
      rw [List.mem_append] at hmem
      rcases hmem with hl | hr
      · by_cases hie : i = inv
        · subst hie
          rw [invokeGated_denied invoke i hist hmut hno] at hl
          simp at hl
        · rcases (invokeGated invoke i hist).2 with _ | _ <;> simp_all
      · exact htail.1 hr
    · intro p hp hpi
      simp only [processInvs] at hp
      rcases List.mem_cons.mp hp with hph | hpt
      · subst hph
        simp only at hpi
        subst hpi
        rw [invokeGated_denied invoke i hist hmut hno]
      · exact htail.2.1 _ hpt hpi
    · simp only [processInvs, humanContents, List.filterMap_cons]
      exact htail.2.2

theorem humanContents_ai_cons (c : String) (tc : List (String × String))
    (rest : List AgentMsg) :
    humanContents (AgentMsg.ai c tc :: rest) = humanContents rest := by
  simp [humanContents, List.filterMap_cons]

theorem runLoop_invariant (oracle : List AgentMsg → AgentStep)
    (invoke : Invocation → String) (inv : Invocation)
    (hmut : isMutatingOp inv.opName = true) :
    ∀ (n : Nat) (hist : List AgentMsg),
      (∀ u ∈ humanContents hist, containsSubstr u (confirmPhrase inv) = false) →
      inv ∉ (runLoop oracle invoke n hist).executed ∧
      (∀ p ∈ (runLoop oracle invoke n hist).trace, p.1 = inv → p.2 = deniedPrompt inv) := by
  intro n
  induction n with
  | zero =>
    intro hist hno
    exact ⟨by simp [runLoop], by simp [runLoop]⟩
  | succ n ih =>
    intro hist hno
    match horacle : oracle hist with
    | .finalAnswer t =>
      simp only [runLoop, horacle]
      exact ⟨by simp, by simp⟩
    | .propose c invs =>
      have hnoP : ∀ u ∈ humanContents (hist ++
          [AgentMsg.ai c (invs.map (fun i => (i.opName, i.targetName)))]),
          containsSubstr u (confirmPhrase inv) = false := by
        rw [humanContents_append]
        intro u hu
        simp [humanContents] at hu
        exact hno u (by simpa [humanContents] using hu)
      have hstep := processInvs_invariant invoke inv hmut invs _ hnoP
      have hnoR : ∀ u ∈ humanContents (hist ++
          AgentMsg.ai c (invs.map (fun i => (i.opName, i.targetName))) ::
            (processInvs invoke invs (hist ++
              [AgentMsg.ai c (invs.map (fun i => (i.opName, i.targetName)))])).msgs),
          containsSubstr u (confirmPhrase inv) = false := by
        rw [humanContents_append, humanContents_ai_cons, hstep.2.2]
        simpa using hno
      have hrest := ih _ hnoR
      simp only [runLoop, horacle]
      constructor
      · intro hmem
        rw [List.mem_append] at hmem
        rcases hmem with hl | hr
        · exact hstep.1 hl
        · exact hrest.1 hr
      · intro p hp hpi
        rw [List.mem_append] at hp
        rcases hp with hl | hr
        · exact hstep.2.1 _ hl hpi
        · exact hrest.2 _ hr hpi

/-- C1: for every proposed invocation of a mutating operation, if the
conversation history contains no user-authored turn with the exact
confirmation phrase, the operation is never passed to the Registry's invoke
and every Invocation Result recorded for it is the prompt stating the exact
phrase required. -/
theorem mutating_invocation_without_phrase_never_invoked
    (oracle : List AgentMsg → AgentStep) (invoke : Invocation → String)
    (cap : Nat) (hist : List AgentMsg) (userMsg : String) (inv : Invocation)
    (hmut : isMutatingOp inv.opName = true)
    (hno : ∀ u ∈ humanContents (hist ++ [AgentMsg.human userMsg]),
      containsSubstr u (confirmPhrase inv) = false) :
    inv ∉ (runTurn oracle invoke cap hist userMsg).executed ∧
    (∀ p ∈ (runTurn oracle invoke cap hist userMsg).trace,
      p.1 = inv → p.2 = deniedPrompt inv) :=
  runLoop_invariant oracle invoke inv hmut cap _ hno

/-- C1 witness: a concrete turn whose user message lacks the phrase — the
trace's only entry carries the denial prompt and nothing is executed. -/
theorem mutating_invocation_without_phrase_never_invoked_witness :
    ((runTurn c1Oracle c1Invoke 5 [] "delete pod nginx-1 in default").trace.getD 0
        (⟨"", ""⟩, "")).2
      = deniedPrompt ⟨"delete_kubernetes_pod", "nginx-1"⟩ ∧
    (runTurn c1Oracle c1Invoke 5 [] "delete pod nginx-1 in default").executed.length = 0 := by
  have h := mutating_invocation_without_phrase_never_invoked c1Oracle c1Invoke 5 []
    "delete pod nginx-1 in default" ⟨"delete_kubernetes_pod", "nginx-1"⟩
    (by decide) (by decide)
  constructor
  · exact h.2 _ (by decide) (by decide)
  · have : (runTurn c1Oracle c1Invoke 5 [] "delete pod nginx-1 in default").executed = [] := by
      decide
    rw [this]; rfl

/-- C4: the loop consults the Oracle at most the iteration cap many times,
and an Oracle that never returns a FinalAnswer still terminates at the cap
with the degraded final answer stating the limit was reached. -/
theorem run_turn_terminates_at_cap (oracle : List AgentMsg → AgentStep)
    (invoke : Invocation → String) (cap : Nat) (hist : List AgentMsg)
    (userMsg : String) :
    (runTurn oracle invoke cap hist userMsg).consults ≤ cap ∧
    ((∀ h, (oracle h).isFinal = false) →
      (runTurn oracle invoke cap hist userMsg).finalText = iterationLimitText) := by
  unfold runTurn
  generalize hist ++ [AgentMsg.human userMsg] = start
  constructor
  · induction cap generalizing start with
    | zero => simp [runLoop]
    | succ n ih =>
      match horacle : oracle start with
      | .finalAnswer t => simp [runLoop, horacle]
      | .propose c invs =>
        simp only [runLoop, horacle]
        exact Nat.succ_le_succ (ih _)
  · intro hnf
    induction cap generalizing start with
    | zero => simp [runLoop]
    | succ n ih =>
      match horacle : oracle start with
      | .finalAnswer t =>
        have := hnf start
        rw [horacle] at this
        simp [AgentStep.isFinal] at this
      | .propose c invs =>
        simp only [runLoop, horacle]
        exact ih _

theorem aiContents_append (a b : List AgentMsg) :
    aiContents (a ++ b) = aiContents a ++ aiContents b :=
  List.filterMap_append a b _

theorem processInvs_msgs_aiContents (invoke : Invocation → String) :
    ∀ (invs : List Invocation) (hist : List AgentMsg),
      aiContents (processInvs invoke invs hist).msgs = [] := by
  intro invs
  induction invs with
  | nil => intro hist; rfl
  | cons i rest ih =>
    intro hist
    simp only [processInvs, aiContents, List.filterMap_cons]
    exact ih _

/-- Folding the extraction over messages with no AI content keeps the
accumulator. -/
theorem extractFinalResponse_no_ai (msgs : List AgentMsg)
    (hai : aiContents msgs = []) (acc : String) :
    extractFinalResponse acc msgs = acc := by
  induction msgs generalizing acc with
  | nil => rfl
  | cons m rest ih =>
    cases m with
    | ai c tc => simp [aiContents, List.filterMap_cons] at hai
    | tool c =>
      simp only [aiContents, List.filterMap_cons] at hai
      exact ih hai acc
    | human c =>
      simp only [aiContents, List.filterMap_cons] at hai
      exact ih hai acc

theorem extractFinalResponse_append (a b : List AgentMsg) (acc : String) :
    extractFinalResponse acc (a ++ b) = extractFinalResponse (extractFinalResponse acc a) b :=
  List.foldl_append _ _ a b

theorem aiContents_cons_ai (c : String) (tc : List (String × String))
    (rest : List AgentMsg) :
    aiContents (AgentMsg.ai c tc :: rest) = c :: aiContents rest := by
  simp [aiContents, List.filterMap_cons]

/-- When every proposal step carries empty content, the concatenation of
the run's AI contents is its final text, whatever the accumulator. -/
theorem runLoop_concat_eq_finalText (oracle : List AgentMsg → AgentStep)
    (invoke : Invocation → String)
    (h1 : ∀ h c invs, oracle h = AgentStep.propose c invs → c = "") :
    ∀ (n : Nat) (hist : List AgentMsg) (acc : String),
      List.foldl (· ++ ·) acc (aiContents (runLoop oracle invoke n hist).newMsgs)
        = acc ++ (runLoop oracle invoke n hist).finalText := by
  intro n
  induction n with
  | zero =>
    intro hist acc
    show List.foldl (· ++ ·) acc (aiContents [AgentMsg.ai iterationLimitText []]) = _
    rw [aiContents_cons_ai]
    rfl
  | succ n ih =>
    intro hist acc
    match horacle : oracle hist with
    | .finalAnswer t =>
      simp only [runLoop, horacle]
      rw [aiContents_cons_ai]
      rfl
    | .propose c invs =>
      have hc : c = "" := h1 _ _ _ horacle
      subst hc
      simp only [runLoop, horacle]
      rw [List.cons_append, aiContents_cons_ai, aiContents_append,
        processInvs_msgs_aiContents, List.nil_append, List.foldl_cons,
        String.append_empty]
      exact ih _ _

/-- With empty proposal contents and non-empty final answers, extracting the
last non-empty AI content of the run's messages yields its final text,
whatever the accumulator. -/
theorem runLoop_extract_eq_finalText (oracle : List AgentMsg → AgentStep)
    (invoke : Invocation → String)
    (h1 : ∀ h c invs, oracle h = AgentStep.propose c invs → c = "")
    (h2 : ∀ h t, oracle h = AgentStep.finalAnswer t → t ≠ "") :
    ∀ (n : Nat) (hist : List AgentMsg) (acc : String),
      extractFinalResponse acc (runLoop oracle invoke n hist).newMsgs
        = (runLoop oracle invoke n hist).finalText := by
  intro n
  induction n with
  | zero =>
    intro hist acc
    show extractFinalResponse acc [AgentMsg.ai iterationLimitText []] = _
    simp only [extractFinalResponse, List.foldl_cons, List.foldl_nil]
    rfl
  | succ n ih =>
    intro hist acc
    match horacle : oracle hist with
    | .finalAnswer t =>
      have ht : t ≠ "" := h2 _ _ horacle
      simp only [runLoop, horacle]
      simp only [extractFinalResponse, List.foldl_cons, List.foldl_nil]
      simp [ht]
    | .propose c invs =>
      have hc : c = "" := h1 _ _ _ horacle
      subst hc
      simp only [runLoop, horacle]
      rw [List.cons_append]
      show extractFinalResponse acc (AgentMsg.ai "" _ :: (_ ++ _)) = _
      simp only [extractFinalResponse, List.foldl_cons]
      rw [show ((if ("" == "") = true then acc else "") = acc) from by simp]
      rw [← extractFinalResponse, extractFinalResponse_append,
        extractFinalResponse_no_ai _ (processInvs_msgs_aiContents invoke invs _)]
      exact ih _ _

/-- C5 (amended): when the Oracle emits text only at its final step (every
intermediate proposal streams no content, and final answers are non-empty),
the concatenation of all streamed fragments equals the buffered path's
`response_text`; in general the stream also carries the intermediate
cycles' content, which the buffered path drops. -/
theorem streaming_buffered_agree_when_only_final_content
    (oracle : List AgentMsg → AgentStep) (invoke : Invocation → String)
    (cap : Nat) (hist : List (String × String)) (userMsg : String)
    (h1 : ∀ h c invs, oracle h = AgentStep.propose c invs → c = "")
    (h2 : ∀ h t, oracle h = AgentStep.finalAnswer t → t ≠ "") :
    concatFragments (streamFragments oracle invoke cap hist userMsg)
      = chatInvokeResponse oracle invoke cap hist userMsg := by
  unfold concatFragments streamFragments chatInvokeResponse
  rw [runLoop_concat_eq_finalText oracle invoke h1, String.empty_append,
    extractFinalResponse_append,
    runLoop_extract_eq_finalText oracle invoke h1 h2]

/-- C5 witness: a run with one silent tool cycle, at which streaming and
buffered delivery agree. -/
theorem streaming_buffered_agree_witness :
    concatFragments (streamFragments c5AgreeOracle c5AgreeInvoke 5 [] "how many pods?")
      = chatInvokeResponse c5AgreeOracle c5AgreeInvoke 5 [] "how many pods?" := by
  apply streaming_buffered_agree_when_only_final_content
  · intro h c invs heq
    unfold c5AgreeOracle at heq
    split at heq
    · cases heq; rfl
    · cases heq
  · intro h t heq
    unfold c5AgreeOracle at heq
    split at heq
    · cases heq
    · cases heq; decide

/-- C5 counterexample: an Oracle that emits text alongside a tool-call cycle
— the streamed concatenation carries the intermediate content, the buffered
`response_text` only the final answer, and the claimed equivalence fails. -/
theorem streaming_buffered_differ_counterexample :
    concatFragments (streamFragments c5DisagreeOracle c5AgreeInvoke 10 [] "how many pods?")
      = "Checking the pods. One pod is running." ∧
    chatInvokeResponse c5DisagreeOracle c5AgreeInvoke 10 [] "how many pods?"
      = "One pod is running." ∧
    ¬ streamingBufferedEquivalence := by
  refine ⟨by decide, by decide, fun hequiv => ?_⟩
  have h := hequiv c5DisagreeOracle c5AgreeInvoke 10 [] "how many pods?"
  rw [show concatFragments (streamFragments c5DisagreeOracle c5AgreeInvoke 10 [] "how many pods?")
      = "Checking the pods. One pod is running." from by decide,
    show chatInvokeResponse c5DisagreeOracle c5AgreeInvoke 10 [] "how many pods?"
      = "One pod is running." from by decide] at h
  exact absurd h (by decide)

/-- C2 (amended): in this registry only the delete operations are gated —
invoked without `confirm` they issue no API call and return the
confirmation prompt; the mutating create and scale operations issue their
create/patch call without any confirmation check; and no read or list
operation withholds its call. -/
theorem gate_only_on_delete_operations :
    -- deletes refuse without confirmation
    ((∀ n ns r, delete_kubernetes_pod n ns false r =
        (s!"Confirmation required to delete pod '{n}' in namespace '{ns}'. " ++
         s!"Please confirm by saying 'yes, delete pod {n}'.", [])) ∧
     (∀ n r, delete_kubernetes_namespace n false r =
        (s!"Confirmation required to delete namespace '{n}'. " ++
         s!"Please confirm by saying 'yes, delete namespace {n}'.", [])) ∧
     (∀ n ns r, delete_kubernetes_deployment n ns false r =
        (s!"Confirmation required to delete deployment '{n}' in namespace '{ns}'. " ++
         s!"Please confirm by saying 'yes, delete deployment {n}'.", [])) ∧
     (∀ n ns r, delete_kubernetes_service n ns false r =
        (s!"Confirmation required to delete service '{n}' in namespace '{ns}'. " ++
         s!"Please confirm by saying 'yes, delete service {n}'.", [])) ∧
     (∀ n ns r, delete_kubernetes_secret n ns false r =
        (s!"Confirmation required to delete Secret '{n}' in namespace '{ns}'. " ++
         s!"Please confirm by saying 'yes, delete secret {n}'.", [])) ∧
     (∀ n ns r, delete_kubernetes_ingress n ns false r =
        (s!"Confirmation required to delete Ingress '{n}' in namespace '{ns}'. " ++
         s!"Please confirm by saying 'yes, delete ingress {n}'.", [])) ∧
     (∀ n ns r, delete_kubernetes_pvc n ns false r =
        (s!"Confirmation required to delete PVC '{n}' in namespace '{ns}'. " ++
         s!"Please confirm by saying 'yes, delete pvc {n}'.", [])) ∧
     (∀ n ns r, delete_kubernetes_hpa n ns false r =
        (s!"Confirmation required to delete HPA '{n}' in namespace '{ns}'. " ++
         s!"Please confirm by saying 'yes, delete hpa {n}'.", []))) ∧
    -- creates and scale issue their mutating call with no confirmation check
    ((∀ n i ns p r, (create_kubernetes_pod n i ns p r).2 = [ApiCall.createPod n i ns p]) ∧
     (∀ n r, (create_kubernetes_namespace n r).2 = [ApiCall.createNamespaceCall n]) ∧
     (∀ n i rep ns p r, (create_kubernetes_deployment n i rep ns p r).2
        = [ApiCall.createDeployment n i rep ns p]) ∧
     (∀ n sel p tp ns ty r, (create_kubernetes_service n sel p tp ns ty r).2
        = [ApiCall.createService n sel p tp ns ty]) ∧
     (∀ n ns d ty r, (create_kubernetes_secret n ns d ty r).2
        = [ApiCall.createSecret n ns ty (d.map (fun kv => (kv.1, b64encodeUtf8 kv.2)))]) ∧
     (∀ n ns h sn sp pa r, (create_kubernetes_ingress n ns h sn sp pa r).2
        = [ApiCall.createIngress n ns h sn sp pa]) ∧
     (∀ n ns sc sz am r, (create_kubernetes_pvc n ns sc sz am r).2
        = [ApiCall.createPvc n ns sc sz am]) ∧
     (∀ n ns k tn mi ma cu r, (create_kubernetes_hpa n ns k tn mi ma cu r).2
        = [ApiCall.createHpa n ns k tn mi ma cu]) ∧
     (∀ n ns r (i : Int), 0 ≤ i → (scale_kubernetes_deployment n (PyReplicas.int i) ns r).2
        = [ApiCall.patchDeploymentScale n ns i])) ∧
    -- reads and lists always issue their call
    ((∀ r, (list_kubernetes_namespaces r).2 = [ApiCall.listNamespacesCall]) ∧
     (∀ n ns r, (get_kubernetes_pod n ns r).2 = [ApiCall.readPod n ns]) ∧
     (∀ n r, (list_kubernetes_pods (some n) r).2 = [ApiCall.listPodsNs n] ∧
        (list_kubernetes_pods none r).2 = [ApiCall.listPodsAll]) ∧
     (∀ n ns t r, (get_kubernetes_pod_logs n ns t r).2 = [ApiCall.readPodLog n ns t]) ∧
     (∀ n f l r, (get_kubernetes_events (some n) f l r).2 = [ApiCall.listEventsNs n f l] ∧
        (get_kubernetes_events none f l r).2 = [ApiCall.listEventsAll f l]) ∧
     (∀ n ns r, (get_kubernetes_deployment_status n ns r).2
        = [ApiCall.readDeploymentStatus n ns]) ∧
     (∀ n ns r, (get_kubernetes_config_map n ns r).2 = [ApiCall.readConfigMap n ns]) ∧
     (∀ n ns m r, (get_kubernetes_secret n ns m r).2 = [ApiCall.readSecret n ns]) ∧
     (∀ n ns r, (get_kubernetes_ingress n ns r).2 = [ApiCall.readIngress n ns]) ∧
     (∀ n r, (get_kubernetes_node_status n r).2 = [ApiCall.readNodeStatus n]) ∧
     (∀ r, (get_kubernetes_cluster_status r).2 = [ApiCall.listNodes]) ∧
     (∀ n ns r, (get_kubernetes_hpa_status n ns r).2 = [ApiCall.readHpaStatus n ns]) ∧
     (∀ n r, (list_kubernetes_hpas (some n) r).2 = [ApiCall.listHpasNs n] ∧
        (list_kubernetes_hpas none r).2 = [ApiCall.listHpasAll]) ∧
     (∀ n r, (list_kubernetes_services (some n) r).2 = [ApiCall.listServicesNs n] ∧
        (list_kubernetes_services none r).2 = [ApiCall.listServicesAll]) ∧
     (∀ n r, (list_kubernetes_deployments (some n) r).2 = [ApiCall.listDeploymentsNs n] ∧
        (list_kubernetes_deployments none r).2 = [ApiCall.listDeploymentsAll]) ∧
     (∀ n ns r, (get_kubernetes_pvc n ns r).2 = [ApiCall.readPvc n ns]) ∧
     (∀ n r, (list_kubernetes_pvcs (some n) r).2 = [ApiCall.listPvcsNs n] ∧
        (list_kubernetes_pvcs none r).2 = [ApiCall.listPvcsAll]) ∧
     (∀ ns r, (list_kubernetes_network_policies ns r).2 = [ApiCall.listNetworkPolicies ns]) ∧
     (∀ (rt n : String) (ns : Option String) (r : ApiResp String) (mth : String),
        resource_api_map.lookup rt.toLower = some mth →
        (containsSubstr mth "namespaced" = false ∨ ns.isNone = false) →
        (describe_kubernetes_resource rt n ns r).2 = [ApiCall.readResource rt.toLower n ns])) := by
  refine ⟨⟨fun n ns r => rfl, fun n r => rfl, fun n ns r => rfl, fun n ns r => rfl,
      fun n ns r => rfl, fun n ns r => rfl, fun n ns r => rfl, fun n ns r => rfl⟩,
    ⟨fun n i ns p r => rfl, fun n r => rfl, fun n i rep ns p r => rfl,
      fun n sel p tp ns ty r => rfl, fun n ns d ty r => rfl, fun n ns h sn sp pa r => rfl,
      fun n ns sc sz am r => rfl, fun n ns k tn mi ma cu r => rfl, ?_⟩,
    ⟨fun r => rfl, fun n ns r => rfl, fun n r => ⟨rfl, rfl⟩, fun n ns t r => rfl,
      fun n f l r => ⟨rfl, rfl⟩, fun n ns r => rfl, fun n ns r => rfl, fun n ns m r => rfl,
      fun n ns r => rfl, fun n r => rfl, fun r => rfl, fun n ns r => rfl,
      fun n r => ⟨rfl, rfl⟩, fun n r => ⟨rfl, rfl⟩, fun n r => ⟨rfl, rfl⟩,
      fun n ns r => rfl, fun n r => ⟨rfl, rfl⟩, fun ns r => rfl, ?_⟩⟩
  · intro n ns r i hge
    simp [scale_kubernetes_deployment, Int.not_lt.mpr hge]
  · intro rt n ns r mth hlook hcond
    have hfalse : (containsSubstr mth "namespaced" && ns.isNone) = false := by
      rcases hcond with hc | hc <;> simp [hc]
    simp [describe_kubernetes_resource, hlook, hfalse]

/-- C2 counterexample: the mutating scale and create operations execute
their Kubernetes API call although no confirmation was or could be given —
the claim "gated iff mutating" fails on the registry. -/
theorem gate_iff_mutating_counterexample :
    ((scale_kubernetes_deployment "web" (PyReplicas.int 3) "default" (ApiResp.ok ())).2.filter
        ApiCall.isMutating) = [ApiCall.patchDeploymentScale "web" "default" 3] ∧
    ((create_kubernetes_pod "nginx-1" "nginx" "default" none (ApiResp.ok ())).2.filter
        ApiCall.isMutating) = [ApiCall.createPod "nginx-1" "nginx" "default" none] ∧
    ¬ gateIffMutatingClaim := by
  refine ⟨by decide, by decide, fun hclaim => ?_⟩
  have h := hclaim.1.1 "nginx-1" "nginx" "default" none (ApiResp.ok ())
  rw [show ((create_kubernetes_pod "nginx-1" "nginx" "default" none (ApiResp.ok ())).2.filter
      ApiCall.isMutating) = [ApiCall.createPod "nginx-1" "nginx" "default" none] from by decide] at h
  exact absurd h (by decide)

/-- C3: the failing input — get_kubernetes_secret on a secret whose data
value is valid base64 of bytes that are not UTF-8 (`"/w=="`, the byte 0xFF)
raises `UnicodeDecodeError` even with masking on, instead of returning a
textual error result: only `ApiException` is caught, and the decode runs
before the mask branch. -/
theorem get_secret_raises_instead_of_text :
    (get_kubernetes_secret "db-creds" "default" true
      (ApiResp.ok ⟨"Opaque", [("password", "/w==")]⟩)).1
      = Except.error PyErr.unicodeDecodeError ∧
    (get_kubernetes_secret "db-creds" "default" false
      (ApiResp.ok ⟨"Opaque", [("password", "/w==")]⟩)).1
      = Except.error PyErr.unicodeDecodeError := by
  exact ⟨by decide, by decide⟩

/-- C6: no partial assistant Turn is persisted.  Any prefix of the stream
generator's execution that ends at or before its last yield contains no
session-store write; a token source that fails mid-stream leaves a trace
with no write at all; and when the turn completes with non-empty output the
write is the one last step, after every yield, carrying the full response. -/
theorem no_partial_assistant_turn_persisted (sid : String) (tokens : List String) :
    (∀ k, k ≤ tokens.length + 1 →
      ∀ s ∈ (streamTokensTrace sid tokens).take k, s.isPersist = false) ∧
    (∀ delivered : List String,
      ∀ s ∈ streamTokensTraceFailed sid delivered, s.isPersist = false) ∧
    (concatFragments tokens ≠ "" →
      streamTokensTrace sid tokens =
        (GenStep.yieldEvent (sessionIdFrame sid) ::
          tokens.map (fun c => GenStep.yieldEvent (sseFrame c))) ++
        [GenStep.persistAssistant sid (concatFragments tokens)]) := by
  refine ⟨?_, ?_, ?_⟩
  · intro k hk s hs
    have hsub : s ∈ GenStep.yieldEvent (sessionIdFrame sid) ::
        tokens.map (fun c => GenStep.yieldEvent (sseFrame c)) := by
      have hrw : streamTokensTrace sid tokens =
          (GenStep.yieldEvent (sessionIdFrame sid) ::
            tokens.map (fun c => GenStep.yieldEvent (sseFrame c))) ++
          (if concatFragments tokens == "" then []
           else [GenStep.persistAssistant sid (concatFragments tokens)]) := by
        simp [streamTokensTrace]
      rw [hrw, List.take_append_of_le_length (by simpa using hk)] at hs
      exact List.mem_of_mem_take hs
    rcases List.mem_cons.mp hsub with h | h
    · subst h; rfl
    · rcases List.mem_map.mp h with ⟨c, _, hc⟩
      subst hc; rfl
  · intro delivered s hs
    rcases List.mem_cons.mp hs with h | h
    · subst h; rfl
    · rcases List.mem_map.mp h with ⟨c, _, hc⟩
      subst hc; rfl
  · intro hne
    simp [streamTokensTrace, hne]

/-- C7: the event sequence of a streaming turn is exactly the
session-identifier frame first, then one frame per Oracle fragment in
order, and then the stream ends (the trace is exhausted). -/
theorem stream_event_order (oracle : List AgentMsg → AgentStep)
    (invoke : Invocation → String) (cap : Nat)
    (hist : List (String × String)) (userMsg : String) (sid : String) :
    yieldedChunks (streamTokensTrace sid (streamFragments oracle invoke cap hist userMsg))
      = sessionIdFrame sid ::
        (streamFragments oracle invoke cap hist userMsg).map sseFrame := by
  generalize streamFragments oracle invoke cap hist userMsg = tokens
  have h1 : ∀ ts : List String,
      List.filterMap GenStep.yieldChunk (ts.map (fun c => GenStep.yieldEvent (sseFrame c)))
        = ts.map sseFrame := by
    intro ts
    induction ts with
    | nil => rfl
    | cons t rest ih => simp [List.filterMap_cons, GenStep.yieldChunk, ih]
  by_cases hc : concatFragments tokens = ""
  · simp [streamTokensTrace, yieldedChunks, hc, List.filterMap_cons, List.filterMap_append,
      GenStep.yieldChunk, h1]
  · simp [streamTokensTrace, yieldedChunks, hc, List.filterMap_cons, List.filterMap_append,
      GenStep.yieldChunk, h1]

theorem find?_append_none {α : Type} (l1 l2 : List α) (p : α → Bool)
    (h : l1.find? p = none) : (l1 ++ l2).find? p = l2.find? p := by
  induction l1 with
  | nil => rfl
  | cons x xs ih =>
    by_cases hx : p x
    · rw [List.find?_cons_of_pos _ hx] at h; cases h
    · rw [List.find?_cons_of_neg _ hx] at h
      rw [List.cons_append, List.find?_cons_of_neg _ hx]
      exact ih h

theorem map_update_of_find?_none (l : List DBSession) (sid : String)
    (f : DBSession → DBSession) (h : l.find? (fun s => s.sid == sid) = none) :
    l.map (fun s => if s.sid == sid then f s else s) = l := by
  have hall := List.find?_eq_none.mp h
  induction l with
  | nil => rfl
  | cons x xs ih =>
    simp only [List.map_cons]
    rw [if_neg (hall x (List.mem_cons_self x xs)),
      ih (List.find?_eq_none.mpr (fun y hy => hall y (List.mem_cons_of_mem x hy)))
        (fun y hy => hall y (List.mem_cons_of_mem x hy))]

/-- Stable sort of a two-message list whose timestamps are monotone. -/
theorem sortByCreatedAt_pair (m1 m2 : DBMessage) (hle : m1.createdAt ≤ m2.createdAt) :
    sortByCreatedAt [m1, m2] = [m1, m2] := by
  show insertByTime m1 (sortByCreatedAt [m2]) = _
  rw [show sortByCreatedAt [m2] = [m2] from rfl]
  show (if m2.createdAt < m1.createdAt then m2 :: insertByTime m1 [] else m1 :: m2 :: []) = _
  rw [if_neg (Nat.not_lt.mpr hle)]

/-- Appending a message under a fresh session id creates the session row. -/
theorem add_message_fresh (db : ChatDB) (sid role content : String) (now : Nat)
    (hfresh : (db : List DBSession).find? (fun s => s.sid == sid) = none) :
    add_message_to_session db sid role content now
      = db ++ [⟨sid, now, [⟨role, content, now⟩]⟩] := by
  unfold add_message_to_session
  rw [hfresh]
  rfl

/-- Appending a message for an id whose one row sits at the back appends to
that row's message list. -/
theorem add_message_existing_last (db : ChatDB) (sid : String) (t : Nat)
    (msgs : List DBMessage) (role content : String) (now : Nat)
    (hfresh : (db : List DBSession).find? (fun s => s.sid == sid) = none) :
    add_message_to_session (db ++ [⟨sid, t, msgs⟩]) sid role content now
      = db ++ [⟨sid, t, msgs ++ [⟨role, content, now⟩]⟩] := by
  unfold add_message_to_session
  rw [find?_append_none db _ _ hfresh,
    List.find?_cons_of_pos _ (by simp)]
  simp only [Option.isSome_some, if_true]
  rw [List.map_append, map_update_of_find?_none db sid _ hfresh]
  simp

/-- Reading a session whose one row sits at the back of the store. -/
theorem get_history_last (db : ChatDB) (sid : String) (t : Nat)
    (msgs : List DBMessage)
    (hfresh : (db : List DBSession).find? (fun s => s.sid == sid) = none) :
    get_session_history (db ++ [⟨sid, t, msgs⟩]) sid
      = (sortByCreatedAt msgs).map (fun m => (m.role, m.content)) := by
  unfold get_session_history
  rw [find?_append_none db _ _ hfresh, List.find?_cons_of_pos _ (by simp)]

/-- C8: appending (user, "hello") then (assistant, "hi") to a fresh session
id and reading that session returns exactly those two turns in that order,
whenever the store's clock is monotone (t1 ≤ t2). -/
theorem session_round_trip (db : ChatDB) (sid : String) (t1 t2 : Nat)
    (hfresh : (db : List DBSession).find? (fun s => s.sid == sid) = none)
    (hle : t1 ≤ t2) :
    get_session_history
      (add_message_to_session (add_message_to_session db sid "user" "hello" t1)
        sid "assistant" "hi" t2) sid
      = [("user", "hello"), ("assistant", "hi")] := by
  rw [add_message_fresh db sid "user" "hello" t1 hfresh,
    add_message_existing_last db sid t1 _ "assistant" "hi" t2 hfresh,
    get_history_last db sid t1 _ hfresh]
  rw [show ([(⟨"user", "hello", t1⟩ : DBMessage)] ++ [(⟨"assistant", "hi", t2⟩ : DBMessage)])
      = [(⟨"user", "hello", t1⟩ : DBMessage), (⟨"assistant", "hi", t2⟩ : DBMessage)] from rfl,
    sortByCreatedAt_pair ⟨"user", "hello", t1⟩ ⟨"assistant", "hi", t2⟩ hle]
  rfl

/-- C8 witness: a fresh store, both writes within the same clock tick. -/
theorem session_round_trip_witness :
    get_session_history
      (add_message_to_session (add_message_to_session [] "s-1" "user" "hello" 7)
        "s-1" "assistant" "hi" 7) "s-1"
      = [("user", "hello"), ("assistant", "hi")] :=
  session_round_trip [] "s-1" 7 7 rfl (Nat.le_refl 7)

/-- C9: scale_kubernetes_deployment validates its replicas argument — a
value that is not a non-negative integer yields exactly the error text with
no API call, and a non-negative integer issues exactly the scale patch. -/
theorem scale_validates_replicas (name : String) (replicas : PyReplicas)
    (ns : String) (resp : ApiResp Unit) :
    (isNonNegReplicas replicas = false →
      scale_kubernetes_deployment name replicas ns resp
        = ("Error: Replicas must be a non-negative integer.", [])) ∧
    (∀ i : Int, replicas = PyReplicas.int i → 0 ≤ i →
      (scale_kubernetes_deployment name replicas ns resp).2
        = [ApiCall.patchDeploymentScale name ns i]) := by
  constructor
  · intro hbad
    match replicas with
    | .other repr => rfl
    | .int i =>
      simp only [isNonNegReplicas, decide_eq_false_iff_not, Int.not_le] at hbad
      simp [scale_kubernetes_deployment, hbad]
  · intro i hrep hge
    subst hrep
    simp [scale_kubernetes_deployment, Int.not_lt.mpr hge]

/-- One masked data line is independent of the (decodable) value. -/
theorem secretDataItem_masked (k v : String)
    (hv : (pyDecodeB64Utf8 v).isOk = true) :
    secretDataItem true (k, v) = Except.ok s!"  {k}: ********" := by
  unfold secretDataItem
  match hd : pyDecodeB64Utf8 v with
  | .error e => rw [hd] at hv; cases hv
  | .ok s => rfl

/-- Mapping the masked item over decodable data yields the masked lines of
the keys alone. -/
theorem mapM_secretDataItem_masked (d : List (String × String))
    (hd : ∀ kv ∈ d, (pyDecodeB64Utf8 kv.2).isOk = true) :
    d.mapM (secretDataItem true)
      = Except.ok (d.map (fun kv => s!"  {kv.1}: ********")) := by
  induction d with
  | nil => rfl
  | cons kv rest ih =>
    rw [List.mapM_cons, secretDataItem_masked kv.1 kv.2
      (by simpa using hd kv (List.mem_cons_self kv rest)),
      ih (fun x hx => hd x (List.mem_cons_of_mem kv hx))]
    rfl

/-- C10: with masking on, the rendered secret is independent of the data
values — two secrets with the same name, type and data keys (all values
valid base64-encoded UTF-8) render identically, every value as ********. -/
theorem get_secret_masked_value_independent (name ns secretType : String)
    (d1 d2 : List (String × String))
    (hkeys : d1.map Prod.fst = d2.map Prod.fst)
    (h1 : ∀ kv ∈ d1, (pyDecodeB64Utf8 kv.2).isOk = true)
    (h2 : ∀ kv ∈ d2, (pyDecodeB64Utf8 kv.2).isOk = true) :
    get_kubernetes_secret name ns true (ApiResp.ok ⟨secretType, d1⟩)
      = get_kubernetes_secret name ns true (ApiResp.ok ⟨secretType, d2⟩) ∧
    (get_kubernetes_secret name ns true (ApiResp.ok ⟨secretType, d1⟩)).1
      = Except.ok (maskedSecretText name ns secretType (d1.map Prod.fst)) := by
  have hrender : ∀ d : List (String × String),
      (∀ kv ∈ d, (pyDecodeB64Utf8 kv.2).isOk = true) →
      get_kubernetes_secret name ns true (ApiResp.ok ⟨secretType, d⟩)
        = (Except.ok (maskedSecretText name ns secretType (d.map Prod.fst)),
           [ApiCall.readSecret name ns]) := by
    intro d hd
    unfold get_kubernetes_secret maskedSecretText
    dsimp only
    by_cases he : d.isEmpty
    · rw [if_pos he, if_pos (by simpa using he)]
    · rw [if_neg he, if_neg (by simpa using he)]
      rw [mapM_secretDataItem_masked d hd]
      dsimp only [Except.map]
      rw [List.map_map]
      rfl
  constructor
  · rw [hrender d1 h1, hrender d2 h2, hkeys]
  · rw [hrender d1 h1]

/-- C10 witness: two one-key secrets with different values render the same. -/
theorem get_secret_masked_value_independent_witness :
    get_kubernetes_secret "app-secret" "default" true
      (ApiResp.ok ⟨"Opaque", [("password", "aGVsbG8=")]⟩)
      = get_kubernetes_secret "app-secret" "default" true
        (ApiResp.ok ⟨"Opaque", [("password", "d29ybGQ=")]⟩) :=
  (get_secret_masked_value_independent "app-secret" "default" "Opaque"
    [("password", "aGVsbG8=")] [("password", "d29ybGQ=")] rfl (by decide) (by decide)).1

